import Mathlib

/-!
# WinFsp: the in-memory file system (memfs) and the security request router

A shallow embedding of `tst/winfsp-tests/memfs.cpp` and of `src/sys/security.c`.

* A path is the list of the 16-bit code units of a NUL-terminated wide string.
* `std::map<PWSTR, MEMFS_FILE_NODE *, MEMFS_FILE_NODE_LESS>` is a list of
  (key, node address) pairs; `find`, `insert`, `erase` and `size`, the only
  members the operations call, do not depend on the iteration order.  A key is
  kept by value: in the source it points to the `FileName` array of its node,
  which is written once, when the node is created.
* Nodes live in a store indexed by address: a cell holds a live node or `none`
  once the node has been released with `free`.  An operation that would read or
  write a released node has no defined result and returns `none`.
* `malloc` may fail and returns memory with indeterminate contents: both are
  supplied by an `Allocator` argument.
* `ULONG` arithmetic is reduced modulo `2 ^ 32`.
* `FspPathSuffix`, whose body is not in the sources, is an argument `Remain` of
  the operations that look up a parent; the theorems hold for every such
  function, and the instances use the one modelled from the spec.
* Calls run one at a time, each to its end: the lock taken around every call by
  `MemfsEnterOperation` and `MemfsLeaveOperation` is not represented.
-/

namespace Memfs

/-- The sector size of the volume (`#define MEMFS_SECTOR_SIZE 512`). -/
def MEMFS_SECTOR_SIZE : Nat := 512

/-- Windows SDK constant `MAX_PATH` (the capacity of `FileName`, in code units). -/
def MAX_PATH : Nat := 260

/-- Number of values of a `ULONG`. -/
def ULONG_RANGE : Nat := 2 ^ 32

/-- A file name: the code units of a wide string, terminator excluded. -/
abbrev Path := List Nat

/-- The status values returned by the operations. -/
inductive NTSTATUS where
  | STATUS_SUCCESS
  | STATUS_OBJECT_NAME_COLLISION
  | STATUS_OBJECT_PATH_NOT_FOUND
  | STATUS_OBJECT_NAME_NOT_FOUND
  | STATUS_OBJECT_NAME_INVALID
  | STATUS_CANNOT_MAKE
  | STATUS_DISK_FULL
  | STATUS_INSUFFICIENT_RESOURCES
  | STATUS_INVALID_DEVICE_REQUEST
  deriving DecidableEq, Repr

open NTSTATUS

/-- The test `NT_SUCCESS(Result)` on the status values above: every value but
`STATUS_SUCCESS` is an error code (severity bits `0xC`). -/
def NT_SUCCESS (Result : NTSTATUS) : Bool :=
  match Result with
  | STATUS_SUCCESS => true
  | _ => false

/-- Modelled from the spec: the body of `FSP_FSCTL_ALIGN_UP(x, s)`, declared in a
header that is not part of the sources at hand.  The spec has it round a size up
to the next multiple of the sector size; the operands are `ULONG`, so the sum
wraps modulo `2 ^ 32` before the low bits are cleared. -/
def FSP_FSCTL_ALIGN_UP (x s : Nat) : Nat :=
  ((x + (s - 1)) % ULONG_RANGE) / s * s

/-- Modelled from the spec: the `Remain` output of `FspPathSuffix`, a helper
whose body is not part of the sources at hand.  The spec has it strip the last
path component: everything from the last backslash (code unit 92) on is cut,
and a path whose only backslash is the leading one has the root as parent. -/
def FspPathSuffix (FileName : Path) : Path :=
  let Remain := (FileName.reverse.dropWhile (fun c => c != 92)).drop 1 |>.reverse
  if Remain = [] ∧ FileName.head? = some 92 then [92] else Remain

/-- The record `MEMFS_FILE_NODE`; a `PVOID` buffer is `none` when the pointer is
null and otherwise the bytes of the block it points to. -/
structure MEMFS_FILE_NODE where
  FileName : Path
  FileAttributes : Nat
  FileSecuritySize : Nat
  FileSecurity : Option (List Nat)
  AllocationSize : Nat
  FileSize : Nat
  FileData : Option (List Nat)
  OpenCount : Nat
  deriving DecidableEq, Repr

/-- The container `MEMFS_FILE_NODE_MAP`: keys with the address of their node. -/
abbrev MEMFS_FILE_NODE_MAP := List (Path × Nat)

/-- The record `MEMFS` (the lock and the dispatcher binding carry no data). -/
structure MEMFS where
  FileNodeMap : MEMFS_FILE_NODE_MAP
  MaxFileNodes : Nat
  MaxFileSize : Nat
  deriving DecidableEq, Repr

/-- The node store: cell `a` is the node at address `a`, or `none` after `free`. -/
abbrev Heap := List (Option MEMFS_FILE_NODE)

/-- A volume together with the nodes allocated for it. -/
structure State where
  Memfs : MEMFS
  Heap : Heap
  deriving DecidableEq, Repr

/-- The outcome of the allocations an operation performs: whether each `malloc`
(and the insertion into the map, which allocates) succeeds, and the indeterminate
bytes found in a fresh block at each offset. -/
structure Allocator where
  node : Bool
  security : Bool
  securityBytes : Nat → Nat
  data : Bool
  dataBytes : Nat → Nat
  insert : Bool

/-- The call `malloc(n)`: null on failure, else a block of `n` indeterminate bytes. -/
def malloc (ok : Bool) (bytes : Nat → Nat) (n : Nat) : Option (List Nat) :=
  if ok then some ((List.range n).map bytes) else none

/-- The node at an address, `none` when it has been released or never allocated. -/
def Heap.node (h : Heap) (a : Nat) : Option MEMFS_FILE_NODE :=
  h.getD a none

/-- The record `FSP_FILE_NODE_INFO` filled by `Create` and `Open`. -/
structure FSP_FILE_NODE_INFO where
  FileAttributes : Nat
  AllocationSize : Nat
  FileSize : Nat
  FileNode : Nat
  deriving DecidableEq, Repr

/-- The record `FSP_FILE_SIZE_INFO` filled by `Overwrite`. -/
structure FSP_FILE_SIZE_INFO where
  AllocationSize : Nat
  FileSize : Nat
  deriving DecidableEq, Repr

/-- Code of `MemfsFileNodeCreate`: the name check, the allocation, and the
zero-filled node carrying the name. -/
def MemfsFileNodeCreate (ok : Bool) (FileName : Path) : NTSTATUS × Option MEMFS_FILE_NODE :=
  if MAX_PATH ≤ FileName.length then (STATUS_OBJECT_NAME_INVALID, none)
  else if !ok then (STATUS_INSUFFICIENT_RESOURCES, none)
  else (STATUS_SUCCESS, some
    { FileName := FileName, FileAttributes := 0, FileSecuritySize := 0, FileSecurity := none,
      AllocationSize := 0, FileSize := 0, FileData := none, OpenCount := 0 })

/-- Code of `MemfsFileNodeDelete` on the node at address `a`: both buffers and
the node are released, so the cell becomes `none`. -/
def MemfsFileNodeDelete (h : Heap) (a : Nat) : Heap :=
  h.set a none

/-- Code of `MemfsFileNodeMapCount`. -/
def MemfsFileNodeMapCount (FileNodeMap : MEMFS_FILE_NODE_MAP) : Nat :=
  FileNodeMap.length

/-- Code of `MemfsFileNodeMapGet`: the address stored under the key, if any. -/
def MemfsFileNodeMapGet (FileNodeMap : MEMFS_FILE_NODE_MAP) (FileName : Path) : Option Nat :=
  (FileNodeMap.find? (fun e => e.1 == FileName)).map (fun e => e.2)

/-- Code of `MemfsFileNodeMapGetParent`: the lookup of the `Remain` part of the
name; `Remain` stands for `FspPathSuffix`. -/
def MemfsFileNodeMapGetParent (Remain : Path → Path) (FileNodeMap : MEMFS_FILE_NODE_MAP)
    (FileName : Path) : Option Nat :=
  MemfsFileNodeMapGet FileNodeMap (Remain FileName)

/-- Code of `MemfsFileNodeMapInsert` for a node named `FileName` at address `a`:
the status, the flag `Inserted` and the map.  `std::map::insert` adds nothing
when the key is present, and an allocation failure inside it becomes
`STATUS_INSUFFICIENT_RESOURCES`. -/
def MemfsFileNodeMapInsert (ok : Bool) (FileNodeMap : MEMFS_FILE_NODE_MAP) (FileName : Path)
    (a : Nat) : NTSTATUS × Bool × MEMFS_FILE_NODE_MAP :=
  if !ok then (STATUS_INSUFFICIENT_RESOURCES, false, FileNodeMap)
  else if (MemfsFileNodeMapGet FileNodeMap FileName).isSome then (STATUS_SUCCESS, false, FileNodeMap)
  else (STATUS_SUCCESS, true, FileNodeMap ++ [(FileName, a)])

/-- Code of `MemfsFileNodeMapRemove`: `erase` by key. -/
def MemfsFileNodeMapRemove (FileNodeMap : MEMFS_FILE_NODE_MAP) (FileName : Path) :
    MEMFS_FILE_NODE_MAP :=
  FileNodeMap.filter (fun e => !(e.1 == FileName))

/-- Code of `memcpy(dst, src, n)`: the first `n` bytes of `dst` become those of
`src`; undefined (`none`) when `src` is null or either block is shorter than `n`. -/
def memcpy (dst : List Nat) (src : Option (List Nat)) (n : Nat) : Option (List Nat) :=
  match src with
  | none => none
  | some b => if n ≤ b.length ∧ n ≤ dst.length then some (b.take n ++ dst.drop n) else none

/-- What `GetSecurity` hands back: the status and the three output locations
(`none` for a location that is null or was not written in the case of
`FileAttributes`; the buffer and the size keep the caller's value when untouched). -/
structure GetSecurityResult where
  Result : NTSTATUS
  FileAttributes : Option Nat
  SecurityDescriptor : Option (List Nat)
  SecurityDescriptorSize : Option Nat
  deriving DecidableEq, Repr

/-- Code of `GetSecurity`.  `PFileAttributes` tells whether that pointer is
non-null, `SecurityDescriptor` is the caller's buffer (`none` for null) and
`PSecurityDescriptorSize` the capacity it points to (`none` for null). -/
def GetSecurity (Remain : Path → Path) (s : State) (FileName : Path) (PFileAttributes : Bool)
    (SecurityDescriptor : Option (List Nat)) (PSecurityDescriptorSize : Option Nat) :
    Option GetSecurityResult :=
  match MemfsFileNodeMapGet s.Memfs.FileNodeMap FileName with
  | none =>
    some { Result :=
             if (MemfsFileNodeMapGetParent Remain s.Memfs.FileNodeMap FileName).isNone
             then STATUS_OBJECT_PATH_NOT_FOUND else STATUS_OBJECT_NAME_NOT_FOUND,
           FileAttributes := none,
           SecurityDescriptor := SecurityDescriptor,
           SecurityDescriptorSize := PSecurityDescriptorSize }
  | some a =>
    match s.Heap.node a with
    | none => none
    | some FileNode =>
      let attrs := if PFileAttributes then some FileNode.FileAttributes else none
      match SecurityDescriptor, PSecurityDescriptorSize with
      | none, none =>
        some { Result := STATUS_SUCCESS, FileAttributes := attrs,
               SecurityDescriptor := none, SecurityDescriptorSize := none }
      | none, some _ =>
        some { Result := STATUS_SUCCESS, FileAttributes := attrs,
               SecurityDescriptor := none,
               SecurityDescriptorSize := some FileNode.FileSecuritySize }
      | some dst, none =>
        some { Result := STATUS_SUCCESS, FileAttributes := attrs,
               SecurityDescriptor := some dst, SecurityDescriptorSize := none }
      | some dst, some cap =>
        if 0 < FileNode.FileSecuritySize ∧ FileNode.FileSecuritySize ≤ cap then
          match memcpy dst FileNode.FileSecurity FileNode.FileSecuritySize with
          | none => none
          | some dst1 =>
            some { Result := STATUS_SUCCESS, FileAttributes := attrs,
                   SecurityDescriptor := some dst1,
                   SecurityDescriptorSize := some FileNode.FileSecuritySize }
        else
          some { Result := STATUS_SUCCESS, FileAttributes := attrs,
                 SecurityDescriptor := some dst,
                 SecurityDescriptorSize := some FileNode.FileSecuritySize }

/-- What `Create` and `Open` hand back: the status, the state afterwards and
`NodeInfo` (`none` when the operation did not write it). -/
structure NodeResult where
  Result : NTSTATUS
  state : State
  NodeInfo : Option FSP_FILE_NODE_INFO
  deriving DecidableEq, Repr

/-- The state after a node allocated at the next free address has been released
again on a failure path of `Create`. -/
def rollback (s : State) : State :=
  { s with Heap := s.Heap ++ [none] }

/-- Code of `Create`.  `SecurityDescriptor` is `none` for a null pointer and
otherwise the bytes of the descriptor, `GetSecurityDescriptorLength` being their
number.  The new node gets the next free address, `s.Heap.length`. -/
def Create (Remain : Path → Path) (A : Allocator) (s : State) (FileName : Path)
    (FileAttributes : Nat) (SecurityDescriptor : Option (List Nat)) (AllocationSize : Nat) :
    NodeResult :=
  if (MemfsFileNodeMapGet s.Memfs.FileNodeMap FileName).isSome then
    ⟨STATUS_OBJECT_NAME_COLLISION, s, none⟩
  else if (MemfsFileNodeMapGetParent Remain s.Memfs.FileNodeMap FileName).isNone then
    ⟨STATUS_OBJECT_PATH_NOT_FOUND, s, none⟩
  else if MemfsFileNodeMapCount s.Memfs.FileNodeMap ≥ s.Memfs.MaxFileNodes then
    ⟨STATUS_CANNOT_MAKE, s, none⟩
  else if AllocationSize > s.Memfs.MaxFileSize then
    ⟨STATUS_DISK_FULL, s, none⟩
  else
    match MemfsFileNodeCreate A.node FileName with
    | (Result, none) => ⟨Result, s, none⟩
    | (_, some FileNode0) =>
      let a := s.Heap.length
      let FileNode1 := { FileNode0 with FileAttributes := FileAttributes }
      let FileNode2 : MEMFS_FILE_NODE :=
        match SecurityDescriptor with
        | none => FileNode1
        | some sd =>
          { FileNode1 with
            FileSecuritySize := sd.length
            FileSecurity := malloc A.security A.securityBytes sd.length }
      if SecurityDescriptor.isSome ∧ FileNode2.FileSecuritySize = 0 then
        ⟨STATUS_INSUFFICIENT_RESOURCES, rollback s, none⟩
      else
        let FileNode3 :=
          { FileNode2 with
            AllocationSize := FSP_FSCTL_ALIGN_UP (AllocationSize % ULONG_RANGE) MEMFS_SECTOR_SIZE }
        let FileNode4 :=
          if FileNode3.AllocationSize ≠ 0 then
            { FileNode3 with FileData := malloc A.data A.dataBytes FileNode3.AllocationSize }
          else FileNode3
        if FileNode3.AllocationSize ≠ 0 ∧ FileNode4.FileData = none then
          ⟨STATUS_INSUFFICIENT_RESOURCES, rollback s, none⟩
        else
          match MemfsFileNodeMapInsert A.insert s.Memfs.FileNodeMap FileNode4.FileName a with
          | (Result, Inserted, FileNodeMap) =>
            if !NT_SUCCESS Result || !Inserted then
              ⟨if NT_SUCCESS Result then STATUS_OBJECT_NAME_COLLISION else Result,
                rollback s, none⟩
            else
              let FileNode5 :=
                { FileNode4 with OpenCount := (FileNode4.OpenCount + 1) % ULONG_RANGE }
              ⟨STATUS_SUCCESS,
                { Memfs := { s.Memfs with FileNodeMap := FileNodeMap },
                  Heap := s.Heap ++ [some FileNode5] },
                some { FileAttributes := FileNode5.FileAttributes,
                       AllocationSize := FileNode5.AllocationSize,
                       FileSize := FileNode5.FileSize,
                       FileNode := a }⟩

/-- Code of `Open`; `none` when the map holds the address of a released node. -/
def Open (Remain : Path → Path) (s : State) (FileName : Path) : Option NodeResult :=
  match MemfsFileNodeMapGet s.Memfs.FileNodeMap FileName with
  | none =>
    some ⟨if (MemfsFileNodeMapGetParent Remain s.Memfs.FileNodeMap FileName).isNone
          then STATUS_OBJECT_PATH_NOT_FOUND else STATUS_OBJECT_NAME_NOT_FOUND, s, none⟩
  | some a =>
    match s.Heap.node a with
    | none => none
    | some FileNode0 =>
      let FileNode := { FileNode0 with OpenCount := (FileNode0.OpenCount + 1) % ULONG_RANGE }
      some ⟨STATUS_SUCCESS, { s with Heap := s.Heap.set a (some FileNode) },
        some { FileAttributes := FileNode.FileAttributes,
               AllocationSize := FileNode.AllocationSize,
               FileSize := FileNode.FileSize,
               FileNode := a }⟩

/-- What `Overwrite` hands back. -/
structure OverwriteResult where
  Result : NTSTATUS
  state : State
  SizeInfo : FSP_FILE_SIZE_INFO
  deriving DecidableEq, Repr

/-- Code of `Overwrite` on the handle `FileNode0` (a node address); `none` when
the node has been released. -/
def Overwrite (s : State) (FileNode0 : Nat) (FileAttributes : Nat)
    (ReplaceFileAttributes : Bool) : Option OverwriteResult :=
  match s.Heap.node FileNode0 with
  | none => none
  | some FileNode =>
    let FileNode1 :=
      if ReplaceFileAttributes then { FileNode with FileAttributes := FileAttributes }
      else { FileNode with FileAttributes := FileNode.FileAttributes ||| FileAttributes }
    let FileNode2 := { FileNode1 with FileSize := 0 }
    some ⟨STATUS_SUCCESS, { s with Heap := s.Heap.set FileNode0 (some FileNode2) },
      { AllocationSize := FileNode2.AllocationSize, FileSize := FileNode2.FileSize }⟩

/-- Code of `Cleanup` on the handle `FileNode0`; the node is read (for its name)
only when `Delete` is set, and the result is `none` if it has been released. -/
def Cleanup (s : State) (FileNode0 : Nat) (Delete : Bool) : Option State :=
  if Delete then
    match s.Heap.node FileNode0 with
    | none => none
    | some FileNode =>
      some { s with Memfs :=
        { s.Memfs with
          FileNodeMap := MemfsFileNodeMapRemove s.Memfs.FileNodeMap FileNode.FileName } }
  else some s

/-- Code of `Close` on the handle `FileNode0`: the count is decremented in
`ULONG` arithmetic and the node released when the result is zero. -/
def Close (s : State) (FileNode0 : Nat) : Option State :=
  match s.Heap.node FileNode0 with
  | none => none
  | some FileNode =>
    let OpenCount := (FileNode.OpenCount + (ULONG_RANGE - 1)) % ULONG_RANGE
    if OpenCount = 0 then
      some { s with Heap := MemfsFileNodeDelete s.Heap FileNode0 }
    else
      some { s with Heap := s.Heap.set FileNode0 (some { FileNode with OpenCount := OpenCount }) }

/-- Code of `MemfsCreate`: the status and the volume built.  `mallocOk` and
`mapOk` tell whether the two allocations succeed and `fsCreate` is the status of
`FspFileSystemCreate`.  The map starts empty and no node is allocated. -/
def MemfsCreate (mallocOk mapOk : Bool) (fsCreate : NTSTATUS) (MaxFileNodes MaxFileSize : Nat) :
    NTSTATUS × Option State :=
  if !mallocOk then (STATUS_INSUFFICIENT_RESOURCES, none)
  else if !mapOk then (STATUS_INSUFFICIENT_RESOURCES, none)
  else if !NT_SUCCESS fsCreate then (fsCreate, none)
  else (STATUS_SUCCESS, some
    { Memfs := { FileNodeMap := [], MaxFileNodes := MaxFileNodes,
                 MaxFileSize := FSP_FSCTL_ALIGN_UP MaxFileSize MEMFS_SECTOR_SIZE },
      Heap := [] })

/-! ## Concrete volumes used to instantiate the theorems -/

/-- A root directory node (name `\`, attribute DIRECTORY) with one open handle. -/
def rootNode : MEMFS_FILE_NODE :=
  { FileName := [92], FileAttributes := 16, FileSecuritySize := 0, FileSecurity := none,
    AllocationSize := 0, FileSize := 0, FileData := none, OpenCount := 1 }

/-- A volume holding the root directory only, with room for two nodes of at most 1024 bytes. -/
def volRoot : State :=
  { Memfs := { FileNodeMap := [([92], 0)], MaxFileNodes := 2, MaxFileSize := 1024 },
    Heap := [some rootNode] }

/-- A volume holding the root directory only, whose node quota of one is used up. -/
def volFull : State :=
  { Memfs := { FileNodeMap := [([92], 0)], MaxFileNodes := 1, MaxFileSize := 1024 },
    Heap := [some rootNode] }

/-- A volume holding the root directory only, with the quotas 100 nodes and 65536 bytes. -/
def volQuota : State :=
  { Memfs := { FileNodeMap := [([92], 0)], MaxFileNodes := 100, MaxFileSize := 65536 },
    Heap := [some rootNode] }

/-- An allocator whose every allocation succeeds and whose fresh blocks hold the byte `0xCD`. -/
def allocOk : Allocator :=
  { node := true, security := true, securityBytes := fun _ => 205,
    data := true, dataBytes := fun _ => 205, insert := true }

/-- A file node `\a` with a four-byte security blob, 1024 bytes allocated and 100 in use. -/
def secNode : MEMFS_FILE_NODE :=
  { FileName := [92, 97], FileAttributes := 32, FileSecuritySize := 4,
    FileSecurity := some [1, 0, 4, 128], AllocationSize := 1024, FileSize := 100,
    FileData := some (List.replicate 1024 0), OpenCount := 1 }

/-- A volume holding the root directory and the file `\a`. -/
def volSec : State :=
  { Memfs := { FileNodeMap := [([92], 0), ([92, 97], 1)], MaxFileNodes := 2, MaxFileSize := 1024 },
    Heap := [some rootNode, some secNode] }

/-- A root directory node whose handle count is the largest `ULONG`. -/
def busyNode : MEMFS_FILE_NODE :=
  { FileName := [92], FileAttributes := 16, FileSecuritySize := 0, FileSecurity := none,
    AllocationSize := 0, FileSize := 0, FileData := none, OpenCount := 4294967295 }

/-- A volume holding the root directory with the largest possible handle count. -/
def volBusy : State :=
  { Memfs := { FileNodeMap := [([92], 0)], MaxFileNodes := 2, MaxFileSize := 1024 },
    Heap := [some busyNode] }

/-- A minimal self-relative security descriptor (revision 1, control `SE_SELF_RELATIVE | SE_DACL_PRESENT`, no owner, group or ACL): 20 bytes. -/
def descriptor : List Nat :=
  [1, 0, 4, 128, 0, 0, 0, 0, 0, 0, 0, 0, 0, 0, 0, 0, 0, 0, 0, 0]

/-! ## The security request router (`src/sys/security.c`)

A device object is represented by the `Kind` field of its extension and a
request packet by the major function code of its current stack location. -/

/-- WDK constant `IRP_MJ_QUERY_SECURITY`. -/
def IRP_MJ_QUERY_SECURITY : Nat := 20

/-- WDK constant `IRP_MJ_SET_SECURITY`. -/
def IRP_MJ_SET_SECURITY : Nat := 21

/-- Code of `FspFsvolQuerySecurity`: the volume-level handler, a stub. -/
def FspFsvolQuerySecurity (_DeviceObject _Irp : Nat) : NTSTATUS :=
  STATUS_INVALID_DEVICE_REQUEST

/-- Code of `FspFsvolSetSecurity`: the volume-level handler, a stub. -/
def FspFsvolSetSecurity (_DeviceObject _Irp : Nat) : NTSTATUS :=
  STATUS_INVALID_DEVICE_REQUEST

/-- Code of `FspQuerySecurity`.  `FspFsvolDeviceExtensionKind` is the enumerator
of a header that is not in the sources and is an argument.  Modelled from the
spec: the bracket `FSP_ENTER_MJ` / `FSP_RETURN` / `FSP_LEAVE_MJ`, from the same
header, hands the status assigned in `FSP_RETURN` back to the caller and has no
other effect at this layer.  The result is `none` when the `ASSERT` on the major
function code fails. -/
def FspQuerySecurity (FspFsvolDeviceExtensionKind : Nat) (DeviceObject Irp : Nat) :
    Option NTSTATUS :=
  if IRP_MJ_QUERY_SECURITY ≠ Irp then none
  else if DeviceObject = FspFsvolDeviceExtensionKind then
    some (FspFsvolQuerySecurity DeviceObject Irp)
  else some STATUS_INVALID_DEVICE_REQUEST

/-- Code of `FspSetSecurity`, with the conventions of `FspQuerySecurity`. -/
def FspSetSecurity (FspFsvolDeviceExtensionKind : Nat) (DeviceObject Irp : Nat) :
    Option NTSTATUS :=
  if IRP_MJ_SET_SECURITY ≠ Irp then none
  else if DeviceObject = FspFsvolDeviceExtensionKind then
    some (FspFsvolSetSecurity DeviceObject Irp)
  else some STATUS_INVALID_DEVICE_REQUEST

/-! ## Sequences of operations on a volume -/

/-- A call of one of the six entries of `MemfsInterface`, with its arguments. -/
inductive Op where
  | GetSecurity (FileName : Path) (PFileAttributes : Bool)
      (SecurityDescriptor : Option (List Nat)) (PSecurityDescriptorSize : Option Nat)
  | Create (A : Allocator) (FileName : Path) (FileAttributes : Nat)
      (SecurityDescriptor : Option (List Nat)) (AllocationSize : Nat)
  | Open (FileName : Path)
  | Overwrite (FileNode0 : Nat) (FileAttributes : Nat) (ReplaceFileAttributes : Bool)
  | Cleanup (FileNode0 : Nat) (Delete : Bool)
  | Close (FileNode0 : Nat)

/-- The state after one call; `none` when the call has no defined result. -/
def step (Remain : Path → Path) (s : State) (op : Op) : Option State :=
  match op with
  | .GetSecurity FileName PFileAttributes SecurityDescriptor PSecurityDescriptorSize =>
    (GetSecurity Remain s FileName PFileAttributes SecurityDescriptor
      PSecurityDescriptorSize).map (fun _ => s)
  | .Create A FileName FileAttributes SecurityDescriptor AllocationSize =>
    some (Create Remain A s FileName FileAttributes SecurityDescriptor AllocationSize).state
  | .Open FileName => (Open Remain s FileName).map (fun r => r.state)
  | .Overwrite FileNode0 FileAttributes ReplaceFileAttributes =>
    (Overwrite s FileNode0 FileAttributes ReplaceFileAttributes).map (fun r => r.state)
  | .Cleanup FileNode0 Delete => Cleanup s FileNode0 Delete
  | .Close FileNode0 => Close s FileNode0

/-- The state after a sequence of calls, each one running to its end before the
next starts. -/
def run (Remain : Path → Path) : State → List Op → Option State
  | s, [] => some s
  | s, op :: ops =>
    match step Remain s op with
    | none => none
    | some t => run Remain t ops

/-! ## The invariant of the node data model -/

/-- The three constraints the spec puts on a node: a name shorter than
`MAX_PATH`, an allocation size that is a multiple of the sector size, and a file
size within the allocation size. -/
def NodeInv (n : MEMFS_FILE_NODE) : Prop :=
  n.FileName.length < MAX_PATH ∧ MEMFS_SECTOR_SIZE ∣ n.AllocationSize ∧
    n.FileSize ≤ n.AllocationSize

instance (n : MEMFS_FILE_NODE) : Decidable (NodeInv n) := by
  unfold NodeInv
  infer_instance

/-- Every live node of the store satisfies `NodeInv`. -/
def HeapInv (h : Heap) : Prop :=
  ∀ a n, h.node a = some n → NodeInv n

/-! ## More concrete volumes -/

/-- The name `\a.txt`. -/
def aTxt : Path := [92, 97, 46, 116, 120, 116]

/-- The attribute `FILE_ATTRIBUTE_ARCHIVE`. -/
def FILE_ATTRIBUTE_ARCHIVE : Nat := 32

/-- The volume `MemfsCreate` builds for the quotas 100 nodes and 65536 bytes. -/
def volEmpty : State :=
  { Memfs := { FileNodeMap := [], MaxFileNodes := 100, MaxFileSize := 65536 }, Heap := [] }

/-- An allocator whose every allocation succeeds but that of the security buffer. -/
def allocNoSecurity : Allocator :=
  { node := true, security := false, securityBytes := fun _ => 205,
    data := true, dataBytes := fun _ => 205, insert := true }

/-- A file node `\a` with two open handles and no buffers. -/
def twoNode : MEMFS_FILE_NODE :=
  { FileName := [92, 97], FileAttributes := 32, FileSecuritySize := 0, FileSecurity := none,
    AllocationSize := 0, FileSize := 0, FileData := none, OpenCount := 2 }

/-- A volume holding the root directory and the file `\a`, the latter opened twice. -/
def volTwo : State :=
  { Memfs := { FileNodeMap := [([92], 0), ([92, 97], 1)], MaxFileNodes := 2, MaxFileSize := 1024 },
    Heap := [some rootNode, some twoNode] }

/-! ## The end-to-end scenario of the spec, on a volume that holds the root -/

/-- Step 1: `Create` of `\a.txt` with 1000 bytes requested. -/
def scenario1 : NodeResult :=
  Create FspPathSuffix allocOk volQuota aTxt FILE_ATTRIBUTE_ARCHIVE none 1000

/-- Step 2: `Open` of `\a.txt`. -/
def scenario2 : Option NodeResult :=
  Open FspPathSuffix scenario1.state aTxt

/-- Step 3: `Close` of one of the two handles (both are the address 1). -/
def scenario3 : Option State :=
  scenario2.bind (fun r => Close r.state 1)

/-- Step 4: `Cleanup` with `Delete` through the remaining handle. -/
def scenario4 : Option State :=
  scenario3.bind (fun t => Cleanup t 1 true)

/-- Step 5: `Create` of `\a.txt` once more. -/
def scenario5 : Option NodeResult :=
  scenario4.map (fun t => Create FspPathSuffix allocOk t aTxt FILE_ATTRIBUTE_ARCHIVE none 1000)

/-- Step 6: `Close` of the original handle. -/
def scenario6 : Option State :=
  scenario5.bind (fun r => Close r.state 1)

/-- The quota condition on a state `t` reached from `s`: the map holds no more
than `MaxFileNodes` entries, and the two quotas are those of `s`. -/
def QuotaKept (s t : State) : Prop :=
  MemfsFileNodeMapCount t.Memfs.FileNodeMap ≤ t.Memfs.MaxFileNodes ∧
    t.Memfs.MaxFileNodes = s.Memfs.MaxFileNodes ∧ t.Memfs.MaxFileSize = s.Memfs.MaxFileSize

/-- The node a `Create` of `\a` with attribute 32, no descriptor and no allocation stores. -/
def plainNode : MEMFS_FILE_NODE :=
  { FileName := [92, 97], FileAttributes := 32, FileSecuritySize := 0, FileSecurity := none,
    AllocationSize := 0, FileSize := 0, FileData := none, OpenCount := 1 }

/-- A volume in which the node at address 1, named `\a`, is detached but still open, and
a second node of the same name, at address 2, is tabled. -/
def volStale : State :=
  { Memfs := { FileNodeMap := [([92], 0), ([92, 97], 2)], MaxFileNodes := 2, MaxFileSize := 1024 },
    Heap := [some rootNode, some plainNode, some plainNode] }

/-- The calls that lead from `volRoot` to `volStale`: `Create` of `\a`, `Cleanup` with
`Delete` on its handle, and `Create` of `\a` again. -/
def staleRun : List Op :=
  [Op.Create allocOk [92, 97] 32 none 0, Op.Cleanup 1 true, Op.Create allocOk [92, 97] 32 none 0]

/-- Nothing is found in an empty map. -/
theorem MemfsFileNodeMapGet_nil (k : Path) : MemfsFileNodeMapGet [] k = none := rfl

/-- Lookup unfolds along the entries of the map. -/
theorem MemfsFileNodeMapGet_cons (e : Path × Nat) (m : MEMFS_FILE_NODE_MAP) (k : Path) :
    MemfsFileNodeMapGet (e :: m) k = if e.1 = k then some e.2 else MemfsFileNodeMapGet m k := by
  unfold MemfsFileNodeMapGet
  by_cases he : e.1 = k
  · simp [List.find?_cons, he]
  · simp [List.find?_cons, he]

/-- A key that was absent resolves to the address inserted for it. -/
theorem MemfsFileNodeMapGet_append_self (m : MEMFS_FILE_NODE_MAP) (k : Path) (a : Nat)
    (h : MemfsFileNodeMapGet m k = none) : MemfsFileNodeMapGet (m ++ [(k, a)]) k = some a := by
  induction m with
  | nil => simp [MemfsFileNodeMapGet_cons]
  | cons e m ih =>
    rw [MemfsFileNodeMapGet_cons] at h
    rw [List.cons_append, MemfsFileNodeMapGet_cons]
    by_cases he : e.1 = k
    · simp [he] at h
    · simp only [he, if_false] at h ⊢
      exact ih h

/-- Inserting a key leaves the lookup of every other key alone. -/
theorem MemfsFileNodeMapGet_append_other (m : MEMFS_FILE_NODE_MAP) (k q : Path) (a : Nat)
    (h : q ≠ k) : MemfsFileNodeMapGet (m ++ [(k, a)]) q = MemfsFileNodeMapGet m q := by
  induction m with
  | nil => simp [MemfsFileNodeMapGet_cons, MemfsFileNodeMapGet_nil, Ne.symm h]
  | cons e m ih =>
    rw [List.cons_append, MemfsFileNodeMapGet_cons, MemfsFileNodeMapGet_cons, ih]

/-- Removal unfolds along the entries of the map. -/
theorem MemfsFileNodeMapRemove_cons (e : Path × Nat) (m : MEMFS_FILE_NODE_MAP) (k : Path) :
    MemfsFileNodeMapRemove (e :: m) k =
      if e.1 = k then MemfsFileNodeMapRemove m k else e :: MemfsFileNodeMapRemove m k := by
  unfold MemfsFileNodeMapRemove
  by_cases he : e.1 = k
  · simp [List.filter_cons, he]
  · simp [List.filter_cons, he]

/-- A removed key no longer resolves. -/
theorem MemfsFileNodeMapGet_remove_self (m : MEMFS_FILE_NODE_MAP) (k : Path) :
    MemfsFileNodeMapGet (MemfsFileNodeMapRemove m k) k = none := by
  induction m with
  | nil => rfl
  | cons e m ih =>
    rw [MemfsFileNodeMapRemove_cons]
    by_cases he : e.1 = k
    · simpa [he] using ih
    · simp only [he, if_false]
      rw [MemfsFileNodeMapGet_cons]
      simpa [he] using ih

/-- Removing a key leaves the lookup of every other key alone. -/
theorem MemfsFileNodeMapGet_remove_other (m : MEMFS_FILE_NODE_MAP) (k q : Path) (h : q ≠ k) :
    MemfsFileNodeMapGet (MemfsFileNodeMapRemove m k) q = MemfsFileNodeMapGet m q := by
  induction m with
  | nil => rfl
  | cons e m ih =>
    rw [MemfsFileNodeMapRemove_cons, MemfsFileNodeMapGet_cons]
    by_cases he : e.1 = k
    · have hq : ¬ e.1 = q := fun hh => h (hh ▸ he)
      rw [if_pos he, if_neg hq]
      exact ih
    · simp only [he, if_false]
      rw [MemfsFileNodeMapGet_cons, ih]

/-- A released cell appended to the store reads like the unallocated address it replaces. -/
theorem Heap.node_append_none (h : Heap) (a : Nat) : Heap.node (h ++ [none]) a = Heap.node h a := by
  unfold Heap.node
  by_cases ha : a < h.length
  · rw [List.getD_append _ _ _ _ ha]
  · have ha2 : h.length ≤ a := Nat.le_of_not_lt ha
    rw [List.getD_append_right _ _ _ _ ha2, List.getD_eq_default _ _ ha2]
    cases hn : a - h.length <;> simp

/-- Allocation leaves the existing cells alone. -/
theorem Heap.node_append_old (h : Heap) (x : Option MEMFS_FILE_NODE) (a : Nat) (ha : a < h.length) :
    Heap.node (h ++ [x]) a = Heap.node h a := by
  unfold Heap.node
  rw [List.getD_append _ _ _ _ ha]

/-- The cell appended by an allocation is read back at the next free address. -/
theorem Heap.node_append_new (h : Heap) (x : Option MEMFS_FILE_NODE) :
    Heap.node (h ++ [x]) h.length = x := by
  unfold Heap.node
  rw [List.getD_append_right _ _ _ _ (Nat.le_refl _)]
  simp

/-- A live node sits at an allocated address. -/
theorem Heap.node_lt (h : Heap) (a : Nat) (n : MEMFS_FILE_NODE) (ha : Heap.node h a = some n) :
    a < h.length := by
  unfold Heap.node at ha
  by_contra hc
  rw [List.getD_eq_default _ _ (Nat.le_of_not_lt hc)] at ha
  simp at ha

/-- Writing an allocated cell and reading it back gives the value written. -/
theorem Heap.node_set_self (h : Heap) (a : Nat) (x : Option MEMFS_FILE_NODE)
    (ha : a < h.length) : Heap.node (h.set a x) a = x := by
  unfold Heap.node
  simp [List.getD_eq_getElem?_getD, List.getElem?_set, ha]

/-- Writing a cell leaves every other cell alone. -/
theorem Heap.node_set_other (h : Heap) (a b : Nat) (x : Option MEMFS_FILE_NODE) (hab : b ≠ a) :
    Heap.node (h.set a x) b = Heap.node h b := by
  unfold Heap.node
  simp [List.getD_eq_getElem?_getD, List.getElem?_set, Ne.symm hab]

/-- The two ways `Create` ends: a failure that writes no `NodeInfo` and leaves the state as it was up to one released cell, or a success, after all four checks and the name check passed, that appends the new node and its map entry. -/
theorem Create_cases (Remain : Path → Path) (A : Allocator) (s : State) (FileName : Path)
    (FileAttributes : Nat) (SecurityDescriptor : Option (List Nat)) (AllocationSize : Nat) :
    let r := Create Remain A s FileName FileAttributes SecurityDescriptor AllocationSize
    (r.Result ≠ STATUS_SUCCESS ∧ r.NodeInfo = none ∧ (r.state = s ∨ r.state = rollback s)) ∨
    (r.Result = STATUS_SUCCESS ∧
      MemfsFileNodeMapGet s.Memfs.FileNodeMap FileName = none ∧
      (MemfsFileNodeMapGetParent Remain s.Memfs.FileNodeMap FileName).isSome ∧
      MemfsFileNodeMapCount s.Memfs.FileNodeMap < s.Memfs.MaxFileNodes ∧
      AllocationSize ≤ s.Memfs.MaxFileSize ∧
      FileName.length < MAX_PATH ∧
      ∃ sec dat,
        r.state = { Memfs := { s.Memfs with FileNodeMap := s.Memfs.FileNodeMap ++ [(FileName, s.Heap.length)] },
                    Heap := s.Heap ++ [some
                      { FileName := FileName, FileAttributes := FileAttributes,
                        FileSecuritySize := sec.1, FileSecurity := sec.2,
                        AllocationSize := FSP_FSCTL_ALIGN_UP (AllocationSize % ULONG_RANGE) MEMFS_SECTOR_SIZE,
                        FileSize := 0, FileData := dat, OpenCount := 1 }] } ∧
        r.NodeInfo = some
          { FileAttributes := FileAttributes,
            AllocationSize := FSP_FSCTL_ALIGN_UP (AllocationSize % ULONG_RANGE) MEMFS_SECTOR_SIZE,
            FileSize := 0, FileNode := s.Heap.length } ∧
        sec = (match SecurityDescriptor with
               | none => (0, none)
               | some sd => (sd.length, malloc A.security A.securityBytes sd.length)) ∧
        dat = (if FSP_FSCTL_ALIGN_UP (AllocationSize % ULONG_RANGE) MEMFS_SECTOR_SIZE ≠ 0 then
                 malloc A.data A.dataBytes (FSP_FSCTL_ALIGN_UP (AllocationSize % ULONG_RANGE) MEMFS_SECTOR_SIZE)
               else none)) := by
  intro r
  by_cases h1 : MemfsFileNodeMapGet s.Memfs.FileNodeMap FileName = none
  swap
  · left
    have : (MemfsFileNodeMapGet s.Memfs.FileNodeMap FileName).isSome = true := by
      cases hh : MemfsFileNodeMapGet s.Memfs.FileNodeMap FileName with
      | none => exact absurd hh h1
      | some a => rfl
    simp [r, Create, this]
  by_cases h2 : MemfsFileNodeMapGetParent Remain s.Memfs.FileNodeMap FileName = none
  · left; simp [r, Create, h1, h2]
  by_cases h3 : s.Memfs.MaxFileNodes ≤ MemfsFileNodeMapCount s.Memfs.FileNodeMap
  · left; simp [r, Create, h1, h2, h3]
  by_cases h4 : s.Memfs.MaxFileSize < AllocationSize
  · left; simp [r, Create, h1, h2, h3, h4]
  by_cases h5 : MAX_PATH ≤ FileName.length
  · left; simp [r, Create, h1, h2, h3, h4, MemfsFileNodeCreate, h5]
  by_cases h6 : A.node = true
  swap
  · left; simp [r, Create, h1, h2, h3, h4, MemfsFileNodeCreate, h5, h6]
  have hone : 1 % ULONG_RANGE = 1 := by norm_num [ULONG_RANGE]
  have hside : (MemfsFileNodeMapGetParent Remain s.Memfs.FileNodeMap FileName).isSome = true ∧
      MemfsFileNodeMapCount s.Memfs.FileNodeMap < s.Memfs.MaxFileNodes ∧
      AllocationSize ≤ s.Memfs.MaxFileSize ∧ FileName.length < MAX_PATH := by
    refine ⟨?_, Nat.lt_of_not_le h3, Nat.le_of_not_lt h4, Nat.lt_of_not_le h5⟩
    cases hh : MemfsFileNodeMapGetParent Remain s.Memfs.FileNodeMap FileName with
    | none => exact absurd hh h2
    | some a => rfl
  have mt : ∀ (f : Nat → Nat) (n : Nat), malloc true f n = some ((List.range n).map f) :=
    fun _ _ => rfl
  have mf : ∀ (f : Nat → Nat) (n : Nat), malloc false f n = none := fun _ _ => rfl
  cases SecurityDescriptor with
  | none =>
    by_cases h7 : FSP_FSCTL_ALIGN_UP (AllocationSize % ULONG_RANGE) MEMFS_SECTOR_SIZE = 0
    · cases h9 : A.insert
      · left; simp [r, Create, h1, h2, h3, h4, MemfsFileNodeCreate, h5, h6, h7, MemfsFileNodeMapInsert, h9, NT_SUCCESS]
      · right
        simp [r, Create, h1, h2, h3, h4, MemfsFileNodeCreate, h5, h6, h7, MemfsFileNodeMapInsert, h9, NT_SUCCESS, hone]
        exact hside
    · cases h8 : A.data
      · left; simp [r, Create, h1, h2, h3, h4, MemfsFileNodeCreate, h5, h6, h7, h8, mf]
      · cases h9 : A.insert
        · left; simp [r, Create, h1, h2, h3, h4, MemfsFileNodeCreate, h5, h6, h7, h8, mt, MemfsFileNodeMapInsert, h9, NT_SUCCESS]
        · right
          simp [r, Create, h1, h2, h3, h4, MemfsFileNodeCreate, h5, h6, h7, h8, mt, MemfsFileNodeMapInsert, h9, NT_SUCCESS, hone]
          exact hside
  | some sd =>
    by_cases h0 : sd = []
    · left; simp [r, Create, h1, h2, h3, h4, MemfsFileNodeCreate, h5, h6, h0]
    by_cases h7 : FSP_FSCTL_ALIGN_UP (AllocationSize % ULONG_RANGE) MEMFS_SECTOR_SIZE = 0
    · cases h9 : A.insert
      · left; simp [r, Create, h1, h2, h3, h4, MemfsFileNodeCreate, h5, h6, h0, h7, MemfsFileNodeMapInsert, h9, NT_SUCCESS]
      · right
        simp [r, Create, h1, h2, h3, h4, MemfsFileNodeCreate, h5, h6, h0, h7, MemfsFileNodeMapInsert, h9, NT_SUCCESS, hone]
        exact hside
    · cases h8 : A.data
      · left; simp [r, Create, h1, h2, h3, h4, MemfsFileNodeCreate, h5, h6, h0, h7, h8, mf]
      · cases h9 : A.insert
        · left; simp [r, Create, h1, h2, h3, h4, MemfsFileNodeCreate, h5, h6, h0, h7, h8, mt, MemfsFileNodeMapInsert, h9, NT_SUCCESS]
        · right
          simp [r, Create, h1, h2, h3, h4, MemfsFileNodeCreate, h5, h6, h0, h7, h8, mt, MemfsFileNodeMapInsert, h9, NT_SUCCESS, hone]
          exact hside

/-- Claim C1: the status of `Create` is decided by four checks in this order.  A name
already in the map gives `STATUS_OBJECT_NAME_COLLISION`; otherwise an absent parent gives
`STATUS_OBJECT_PATH_NOT_FOUND`; otherwise a map holding `MaxFileNodes` entries or more gives
`STATUS_CANNOT_MAKE`; otherwise an allocation size above `MaxFileSize` gives
`STATUS_DISK_FULL`.  Each case assumes only that the earlier checks passed, so an earlier
failing check wins whatever the later ones would say.  It holds for every state, allocator,
request and parent function. -/
theorem Create_checks_in_order (Remain : Path → Path) (A : Allocator) (s : State) (FileName : Path)
    (FileAttributes : Nat) (SecurityDescriptor : Option (List Nat)) (AllocationSize : Nat) :
    ((MemfsFileNodeMapGet s.Memfs.FileNodeMap FileName).isSome →
      (Create Remain A s FileName FileAttributes SecurityDescriptor AllocationSize).Result
        = STATUS_OBJECT_NAME_COLLISION) ∧
    (MemfsFileNodeMapGet s.Memfs.FileNodeMap FileName = none →
      MemfsFileNodeMapGetParent Remain s.Memfs.FileNodeMap FileName = none →
      (Create Remain A s FileName FileAttributes SecurityDescriptor AllocationSize).Result
        = STATUS_OBJECT_PATH_NOT_FOUND) ∧
    (MemfsFileNodeMapGet s.Memfs.FileNodeMap FileName = none →
      (MemfsFileNodeMapGetParent Remain s.Memfs.FileNodeMap FileName).isSome →
      MemfsFileNodeMapCount s.Memfs.FileNodeMap ≥ s.Memfs.MaxFileNodes →
      (Create Remain A s FileName FileAttributes SecurityDescriptor AllocationSize).Result
        = STATUS_CANNOT_MAKE) ∧
    (MemfsFileNodeMapGet s.Memfs.FileNodeMap FileName = none →
      (MemfsFileNodeMapGetParent Remain s.Memfs.FileNodeMap FileName).isSome →
      MemfsFileNodeMapCount s.Memfs.FileNodeMap < s.Memfs.MaxFileNodes →
      AllocationSize > s.Memfs.MaxFileSize →
      (Create Remain A s FileName FileAttributes SecurityDescriptor AllocationSize).Result
        = STATUS_DISK_FULL) := by
  refine ⟨?_, ?_, ?_, ?_⟩
  · intro h
    simp [Create, h]
  · intro h hp
    simp [Create, h, hp]
  · intro h hp hc
    have hp2 : ¬ MemfsFileNodeMapGetParent Remain s.Memfs.FileNodeMap FileName = none := by
      intro hh; rw [hh] at hp; simp at hp
    simp [Create, h, hp2, hc]
  · intro h hp hc ha
    have hp2 : ¬ MemfsFileNodeMapGetParent Remain s.Memfs.FileNodeMap FileName = none := by
      intro hh; rw [hh] at hp; simp at hp
    simp [Create, h, hp2, Nat.not_le.mpr hc, ha]

/-- Claim C1, instances: one request for each of the four checks. -/
theorem Create_checks_in_order_witness :
    (Create FspPathSuffix allocOk volRoot [92] 32 none 0).Result = STATUS_OBJECT_NAME_COLLISION ∧
    (Create FspPathSuffix allocOk volRoot [92, 97, 92, 98] 32 none 0).Result
      = STATUS_OBJECT_PATH_NOT_FOUND ∧
    (Create FspPathSuffix allocOk volFull [92, 97] 32 none 2000).Result = STATUS_CANNOT_MAKE ∧
    (Create FspPathSuffix allocOk volRoot [92, 97] 32 none 2000).Result = STATUS_DISK_FULL :=
  ⟨(Create_checks_in_order FspPathSuffix allocOk volRoot [92] 32 none 0).1 (by decide),
   (Create_checks_in_order FspPathSuffix allocOk volRoot [92, 97, 92, 98] 32 none 0).2.1
     (by decide) (by decide),
   (Create_checks_in_order FspPathSuffix allocOk volFull [92, 97] 32 none 2000).2.2.1
     (by decide) (by decide) (by decide),
   (Create_checks_in_order FspPathSuffix allocOk volRoot [92, 97] 32 none 2000).2.2.2
     (by decide) (by decide) (by decide) (by decide)⟩


/-- Claim C2: for a path that is not in the map, `GetSecurity` and `Open` both return
`STATUS_OBJECT_PATH_NOT_FOUND` when no ancestor of the path (no iterate of the parent
function) is in the map, and both return `STATUS_OBJECT_NAME_NOT_FOUND` when the parent is
in the map.  In both cases `Open` hands back the state it was given and writes no
`NodeInfo`, and `GetSecurity`, which never writes to the volume, leaves its three output
locations as the caller passed them. -/
theorem lookup_miss_status (Remain : Path → Path) (s : State) (p : Path) (PFileAttributes : Bool)
    (SecurityDescriptor : Option (List Nat)) (PSecurityDescriptorSize : Option Nat)
    (hp : MemfsFileNodeMapGet s.Memfs.FileNodeMap p = none) :
    ((∀ k, 0 < k → MemfsFileNodeMapGet s.Memfs.FileNodeMap (Remain^[k] p) = none) →
      GetSecurity Remain s p PFileAttributes SecurityDescriptor PSecurityDescriptorSize
        = some { Result := STATUS_OBJECT_PATH_NOT_FOUND, FileAttributes := none,
                 SecurityDescriptor := SecurityDescriptor,
                 SecurityDescriptorSize := PSecurityDescriptorSize } ∧
      Open Remain s p
        = some { Result := STATUS_OBJECT_PATH_NOT_FOUND, state := s, NodeInfo := none }) ∧
    ((MemfsFileNodeMapGet s.Memfs.FileNodeMap (Remain p)).isSome →
      GetSecurity Remain s p PFileAttributes SecurityDescriptor PSecurityDescriptorSize
        = some { Result := STATUS_OBJECT_NAME_NOT_FOUND, FileAttributes := none,
                 SecurityDescriptor := SecurityDescriptor,
                 SecurityDescriptorSize := PSecurityDescriptorSize } ∧
      Open Remain s p
        = some { Result := STATUS_OBJECT_NAME_NOT_FOUND, state := s, NodeInfo := none }) := by
  constructor
  · intro hanc
    have h1 : MemfsFileNodeMapGet s.Memfs.FileNodeMap (Remain p) = none := by
      simpa using hanc 1 Nat.one_pos
    simp [GetSecurity, Open, hp, MemfsFileNodeMapGetParent, h1]
  · intro hpar
    have h1 : ¬ MemfsFileNodeMapGet s.Memfs.FileNodeMap (Remain p) = none := by
      intro hh; rw [hh] at hpar; simp at hpar
    simp [GetSecurity, Open, hp, MemfsFileNodeMapGetParent, h1]

/-- Every ancestor of the relative name `ab` is the empty path. -/
theorem FspPathSuffix_iterate_relative (k : Nat) (hk : 0 < k) : FspPathSuffix^[k] [97, 98] = [] := by
  induction k with
  | zero => exact absurd hk (Nat.lt_irrefl 0)
  | succ n ih =>
    cases n with
    | zero => decide
    | succ m =>
      rw [Function.iterate_succ_apply', ih (Nat.succ_pos m)]
      decide

/-- Claim C2, instances: the relative name `ab`, none of whose ancestors exists, and the
name `\a` under the existing root. -/
theorem lookup_miss_status_witness :
    (GetSecurity FspPathSuffix volRoot [97, 98] true none (some 0)
        = some { Result := STATUS_OBJECT_PATH_NOT_FOUND, FileAttributes := none,
                 SecurityDescriptor := none, SecurityDescriptorSize := some 0 } ∧
      Open FspPathSuffix volRoot [97, 98]
        = some { Result := STATUS_OBJECT_PATH_NOT_FOUND, state := volRoot, NodeInfo := none }) ∧
    (GetSecurity FspPathSuffix volRoot [92, 97] true none (some 0)
        = some { Result := STATUS_OBJECT_NAME_NOT_FOUND, FileAttributes := none,
                 SecurityDescriptor := none, SecurityDescriptorSize := some 0 } ∧
      Open FspPathSuffix volRoot [92, 97]
        = some { Result := STATUS_OBJECT_NAME_NOT_FOUND, state := volRoot, NodeInfo := none }) :=
  ⟨(lookup_miss_status FspPathSuffix volRoot [97, 98] true none (some 0) (by decide)).1
      (fun k hk => by rw [FspPathSuffix_iterate_relative k hk]; decide),
   (lookup_miss_status FspPathSuffix volRoot [92, 97] true none (some 0) (by decide)).2
      (by decide)⟩

/-- Claim C3: a `Create` that returns a status other than `STATUS_SUCCESS` leaves the volume
record, hence the map, untouched: every key resolves to the same address, the count is the
same, the node at every address is the same, and no `NodeInfo` is written.  In particular,
on an occupied name, on a full map and on an allocation size above the quota `Create`
fails and returns the very state it was given. -/
theorem Create_failure_no_trace (Remain : Path → Path) (A : Allocator) (s : State)
    (FileName : Path) (FileAttributes : Nat) (SecurityDescriptor : Option (List Nat))
    (AllocationSize : Nat) :
    ((Create Remain A s FileName FileAttributes SecurityDescriptor AllocationSize).Result
        ≠ STATUS_SUCCESS →
      (Create Remain A s FileName FileAttributes SecurityDescriptor AllocationSize).state.Memfs
        = s.Memfs ∧
      (∀ q, MemfsFileNodeMapGet
          (Create Remain A s FileName FileAttributes SecurityDescriptor
            AllocationSize).state.Memfs.FileNodeMap q
        = MemfsFileNodeMapGet s.Memfs.FileNodeMap q) ∧
      MemfsFileNodeMapCount
          (Create Remain A s FileName FileAttributes SecurityDescriptor
            AllocationSize).state.Memfs.FileNodeMap
        = MemfsFileNodeMapCount s.Memfs.FileNodeMap ∧
      (∀ a, (Create Remain A s FileName FileAttributes SecurityDescriptor
          AllocationSize).state.Heap.node a = s.Heap.node a) ∧
      (Create Remain A s FileName FileAttributes SecurityDescriptor AllocationSize).NodeInfo
        = none) ∧
    (((MemfsFileNodeMapGet s.Memfs.FileNodeMap FileName).isSome ∨
        MemfsFileNodeMapCount s.Memfs.FileNodeMap ≥ s.Memfs.MaxFileNodes ∨
        AllocationSize > s.Memfs.MaxFileSize) →
      (Create Remain A s FileName FileAttributes SecurityDescriptor AllocationSize).Result
        ≠ STATUS_SUCCESS ∧
      (Create Remain A s FileName FileAttributes SecurityDescriptor AllocationSize).state = s) := by
  constructor
  · intro hfail
    rcases Create_cases Remain A s FileName FileAttributes SecurityDescriptor AllocationSize with
      ⟨_, hinfo, hst⟩ | ⟨hok, _⟩
    · rcases hst with hst | hst
      · rw [hst]; exact ⟨rfl, fun _ => rfl, rfl, fun _ => rfl, hinfo⟩
      · rw [hst]
        exact ⟨rfl, fun _ => rfl, rfl, fun a => Heap.node_append_none s.Heap a, hinfo⟩
    · exact absurd hok hfail
  · intro hpre
    by_cases h1 : (MemfsFileNodeMapGet s.Memfs.FileNodeMap FileName).isSome = true
    · simp [Create, h1]
    by_cases h2 : (MemfsFileNodeMapGetParent Remain s.Memfs.FileNodeMap FileName).isNone = true
    · simp [Create, h1, h2]
    by_cases h3 : MemfsFileNodeMapCount s.Memfs.FileNodeMap ≥ s.Memfs.MaxFileNodes
    · simp [Create, h1, h2, h3]
    by_cases h4 : AllocationSize > s.Memfs.MaxFileSize
    · simp [Create, h1, h2, h3, h4]
    · rcases hpre with h | h | h
      · exact absurd h h1
      · exact absurd h h3
      · exact absurd h h4


/-- Claim C3, instances: a `Create` whose data buffer cannot be allocated, and a `Create`
on the occupied name of the root. -/
theorem Create_failure_no_trace_witness :
    ((Create FspPathSuffix { allocOk with data := false } volRoot [92, 97] 32 none 1000).state.Memfs
        = volRoot.Memfs ∧
      (∀ q, MemfsFileNodeMapGet
          (Create FspPathSuffix { allocOk with data := false } volRoot [92, 97] 32 none
            1000).state.Memfs.FileNodeMap q
        = MemfsFileNodeMapGet volRoot.Memfs.FileNodeMap q) ∧
      MemfsFileNodeMapCount
          (Create FspPathSuffix { allocOk with data := false } volRoot [92, 97] 32 none
            1000).state.Memfs.FileNodeMap
        = MemfsFileNodeMapCount volRoot.Memfs.FileNodeMap ∧
      (∀ a, (Create FspPathSuffix { allocOk with data := false } volRoot [92, 97] 32 none
          1000).state.Heap.node a = volRoot.Heap.node a) ∧
      (Create FspPathSuffix { allocOk with data := false } volRoot [92, 97] 32 none 1000).NodeInfo
        = none) ∧
    ((Create FspPathSuffix allocOk volRoot [92] 32 none 0).Result ≠ STATUS_SUCCESS ∧
      (Create FspPathSuffix allocOk volRoot [92] 32 none 0).state = volRoot) :=
  ⟨(Create_failure_no_trace FspPathSuffix { allocOk with data := false } volRoot [92, 97] 32 none
      1000).1 (by decide),
   (Create_failure_no_trace FspPathSuffix allocOk volRoot [92] 32 none 0).2
      (Or.inl (by decide))⟩

/-- Claim C4: after a `Create` that returns `STATUS_SUCCESS` on the path `p`, the map
resolves `p` to the new node, which sits at an address that held no node before; every
other key resolves as before and every other address holds what it held; the count has
grown by exactly one; the new node carries the name `p`, `OpenCount = 1`, `FileSize = 0`
and the attributes passed in; and `NodeInfo` carries the attributes and the allocation
size of that node, file size 0 and the address of that node. -/
theorem Create_success_effect (Remain : Path → Path) (A : Allocator) (s : State)
    (p : Path) (FileAttributes : Nat) (SecurityDescriptor : Option (List Nat))
    (AllocationSize : Nat)
    (hok : (Create Remain A s p FileAttributes SecurityDescriptor AllocationSize).Result
      = STATUS_SUCCESS) :
    ∃ FileNode : MEMFS_FILE_NODE,
      (Create Remain A s p FileAttributes SecurityDescriptor AllocationSize).state.Heap.node
          s.Heap.length = some FileNode ∧
      s.Heap.node s.Heap.length = none ∧
      MemfsFileNodeMapGet
          (Create Remain A s p FileAttributes SecurityDescriptor
            AllocationSize).state.Memfs.FileNodeMap p = some s.Heap.length ∧
      (∀ q, q ≠ p →
        MemfsFileNodeMapGet
            (Create Remain A s p FileAttributes SecurityDescriptor
              AllocationSize).state.Memfs.FileNodeMap q
          = MemfsFileNodeMapGet s.Memfs.FileNodeMap q) ∧
      (∀ a, a ≠ s.Heap.length →
        (Create Remain A s p FileAttributes SecurityDescriptor AllocationSize).state.Heap.node a
          = s.Heap.node a) ∧
      MemfsFileNodeMapCount
          (Create Remain A s p FileAttributes SecurityDescriptor
            AllocationSize).state.Memfs.FileNodeMap
        = MemfsFileNodeMapCount s.Memfs.FileNodeMap + 1 ∧
      FileNode.FileName = p ∧
      FileNode.OpenCount = 1 ∧
      FileNode.FileSize = 0 ∧
      FileNode.FileAttributes = FileAttributes ∧
      (Create Remain A s p FileAttributes SecurityDescriptor AllocationSize).NodeInfo
        = some { FileAttributes := FileNode.FileAttributes,
                 AllocationSize := FileNode.AllocationSize,
                 FileSize := 0,
                 FileNode := s.Heap.length } := by
  rcases Create_cases Remain A s p FileAttributes SecurityDescriptor AllocationSize with
    ⟨hfail, _⟩ | ⟨_, hget, _, _, _, _, sec, dat, hst, hinfo, _, _⟩
  · exact absurd hok hfail
  · rw [hst, hinfo]
    refine ⟨_, Heap.node_append_new s.Heap _, ?_, ?_, ?_, ?_, ?_, rfl, rfl, rfl, rfl, rfl⟩
    · exact List.getD_eq_default _ _ (Nat.le_refl _)
    · exact MemfsFileNodeMapGet_append_self _ _ _ hget
    · intro q hq
      exact MemfsFileNodeMapGet_append_other _ _ _ _ hq
    · intro a ha
      by_cases hlt : a < s.Heap.length
      · exact Heap.node_append_old _ _ _ hlt
      · have hgt : s.Heap.length + 1 ≤ a := by omega
        show List.getD _ a none = List.getD _ a none
        rw [List.getD_eq_default _ _ (Nat.le_of_lt hgt), List.getD_eq_default]
        simp; omega
    · simp [MemfsFileNodeMapCount]

/-- Claim C4, instance: creating `\a` under the root. -/
theorem Create_success_effect_witness :
    ∃ FileNode : MEMFS_FILE_NODE,
      (Create FspPathSuffix allocOk volRoot [92, 97] 32 none 1000).state.Heap.node
          volRoot.Heap.length = some FileNode ∧
      volRoot.Heap.node volRoot.Heap.length = none ∧
      MemfsFileNodeMapGet
          (Create FspPathSuffix allocOk volRoot [92, 97] 32 none 1000).state.Memfs.FileNodeMap
          [92, 97] = some volRoot.Heap.length ∧
      (∀ q, q ≠ [92, 97] →
        MemfsFileNodeMapGet
            (Create FspPathSuffix allocOk volRoot [92, 97] 32 none 1000).state.Memfs.FileNodeMap q
          = MemfsFileNodeMapGet volRoot.Memfs.FileNodeMap q) ∧
      (∀ a, a ≠ volRoot.Heap.length →
        (Create FspPathSuffix allocOk volRoot [92, 97] 32 none 1000).state.Heap.node a
          = volRoot.Heap.node a) ∧
      MemfsFileNodeMapCount
          (Create FspPathSuffix allocOk volRoot [92, 97] 32 none 1000).state.Memfs.FileNodeMap
        = MemfsFileNodeMapCount volRoot.Memfs.FileNodeMap + 1 ∧
      FileNode.FileName = [92, 97] ∧
      FileNode.OpenCount = 1 ∧
      FileNode.FileSize = 0 ∧
      FileNode.FileAttributes = 32 ∧
      (Create FspPathSuffix allocOk volRoot [92, 97] 32 none 1000).NodeInfo
        = some { FileAttributes := FileNode.FileAttributes,
                 AllocationSize := FileNode.AllocationSize,
                 FileSize := 0,
                 FileNode := volRoot.Heap.length } :=
  Create_success_effect FspPathSuffix allocOk volRoot [92, 97] 32 none 1000 (by decide)


/-- What a successful `MemfsCreate` stores: the rounded size quota, the node quota, an empty map and no node. -/
theorem MemfsCreate_MaxFileSize (mallocOk mapOk : Bool) (fsCreate : NTSTATUS)
    (MaxFileNodes MaxFileSize : Nat) (v : State)
    (hv : MemfsCreate mallocOk mapOk fsCreate MaxFileNodes MaxFileSize = (STATUS_SUCCESS, some v)) :
    v.Memfs.MaxFileSize = FSP_FSCTL_ALIGN_UP MaxFileSize MEMFS_SECTOR_SIZE ∧
      v.Memfs.MaxFileNodes = MaxFileNodes ∧ v.Memfs.FileNodeMap = [] ∧ v.Heap = [] := by
  cases mallocOk <;> cases mapOk <;> cases fsCreate <;>
    simp [MemfsCreate, NT_SUCCESS] at hv
  subst hv
  exact ⟨rfl, rfl, rfl, rfl⟩

/-- Below a quota that is itself a rounded `ULONG`, truncation and rounding lose nothing: the result is the least multiple of the sector size not below the request. -/
theorem align_up_exact (x M : Nat)
    (hx : x ≤ FSP_FSCTL_ALIGN_UP M MEMFS_SECTOR_SIZE) :
    MEMFS_SECTOR_SIZE ∣ FSP_FSCTL_ALIGN_UP (x % ULONG_RANGE) MEMFS_SECTOR_SIZE ∧
      x ≤ FSP_FSCTL_ALIGN_UP (x % ULONG_RANGE) MEMFS_SECTOR_SIZE ∧
      ∀ m, MEMFS_SECTOR_SIZE ∣ m → x ≤ m →
        FSP_FSCTL_ALIGN_UP (x % ULONG_RANGE) MEMFS_SECTOR_SIZE ≤ m := by
  simp only [FSP_FSCTL_ALIGN_UP, MEMFS_SECTOR_SIZE, ULONG_RANGE] at *
  have h32 : (2 : Nat) ^ 32 = 4294967296 := by norm_num
  rw [h32] at *
  refine ⟨Nat.dvd_mul_left _ _, ?_, ?_⟩
  · omega
  · intro m hm hxm
    obtain ⟨c, rfl⟩ := hm
    omega

/-- Claim C5: on a volume whose `MaxFileSize` is the one a successful `MemfsCreate` stored,
a `Create` that returns `STATUS_SUCCESS` stores, and reports in `NodeInfo`, an allocation
size that is a multiple of 512, is not below the requested size, and is not above any
other such multiple: the truncation of the request to a `ULONG` and the wrap-around of
the rounding lose nothing.  The request and the quota passed to `MemfsCreate` are
arbitrary naturals. -/
theorem Create_allocation_rounding (Remain : Path → Path) (A : Allocator) (s : State)
    (p : Path) (FileAttributes : Nat) (SecurityDescriptor : Option (List Nat))
    (AllocationSize : Nat) (mallocOk mapOk : Bool) (fsCreate : NTSTATUS)
    (MaxFileNodes MaxFileSize : Nat) (v : State)
    (hv : MemfsCreate mallocOk mapOk fsCreate MaxFileNodes MaxFileSize = (STATUS_SUCCESS, some v))
    (hmax : s.Memfs.MaxFileSize = v.Memfs.MaxFileSize)
    (hok : (Create Remain A s p FileAttributes SecurityDescriptor AllocationSize).Result
      = STATUS_SUCCESS) :
    ∃ (FileNode : MEMFS_FILE_NODE) (NodeInfo : FSP_FILE_NODE_INFO),
      (Create Remain A s p FileAttributes SecurityDescriptor AllocationSize).state.Heap.node
          s.Heap.length = some FileNode ∧
      (Create Remain A s p FileAttributes SecurityDescriptor AllocationSize).NodeInfo
        = some NodeInfo ∧
      NodeInfo.AllocationSize = FileNode.AllocationSize ∧
      MEMFS_SECTOR_SIZE ∣ FileNode.AllocationSize ∧
      AllocationSize ≤ FileNode.AllocationSize ∧
      ∀ m, MEMFS_SECTOR_SIZE ∣ m → AllocationSize ≤ m → FileNode.AllocationSize ≤ m := by
  rcases Create_cases Remain A s p FileAttributes SecurityDescriptor AllocationSize with
    ⟨hfail, _⟩ | ⟨_, _, _, _, hle, _, sec, dat, hst, hinfo, _, _⟩
  · exact absurd hok hfail
  · rw [hmax, (MemfsCreate_MaxFileSize _ _ _ _ _ _ hv).1] at hle
    rw [hst, hinfo]
    exact ⟨_, _, Heap.node_append_new s.Heap _, rfl, rfl, align_up_exact AllocationSize MaxFileSize hle⟩


/-- Claim C5, instance: a request of 1000 bytes under the quota 65536. -/
theorem Create_allocation_rounding_witness :
    ∃ (FileNode : MEMFS_FILE_NODE) (NodeInfo : FSP_FILE_NODE_INFO),
      (Create FspPathSuffix allocOk volQuota [92, 97] 32 none 1000).state.Heap.node
          volQuota.Heap.length = some FileNode ∧
      (Create FspPathSuffix allocOk volQuota [92, 97] 32 none 1000).NodeInfo = some NodeInfo ∧
      NodeInfo.AllocationSize = FileNode.AllocationSize ∧
      MEMFS_SECTOR_SIZE ∣ FileNode.AllocationSize ∧
      1000 ≤ FileNode.AllocationSize ∧
      ∀ m, MEMFS_SECTOR_SIZE ∣ m → 1000 ≤ m → FileNode.AllocationSize ≤ m :=
  Create_allocation_rounding FspPathSuffix allocOk volQuota [92, 97] 32 none 1000
    true true STATUS_SUCCESS 100 65536
    { Memfs := { FileNodeMap := [], MaxFileNodes := 100, MaxFileSize := 65536 }, Heap := [] }
    (by decide) (by decide) (by decide)

/-- Claim C7, evaluated: `Create` with the 20-byte descriptor succeeds, and the following
`GetSecurity` with a 20-byte destination returns success and size 20 but delivers the
bytes `malloc` left in the block (here `0xCD`), not those of the descriptor: `Create`
allocates the buffer and records the length without ever copying the descriptor into it. -/
theorem Create_drops_security_descriptor :
    (Create FspPathSuffix allocOk volRoot [92, 97] 32 (some descriptor) 0).Result
      = STATUS_SUCCESS ∧
    GetSecurity FspPathSuffix
        (Create FspPathSuffix allocOk volRoot [92, 97] 32 (some descriptor) 0).state
        [92, 97] false (some (List.replicate 20 0)) (some 20)
      = some { Result := STATUS_SUCCESS, FileAttributes := none,
               SecurityDescriptor := some (List.replicate 20 205),
               SecurityDescriptorSize := some 20 } ∧
    List.replicate 20 205 ≠ descriptor := by
  decide

/-- Claim C8 fails as stated: on the root node holding `OpenCount = 4294967295`, `Open`
returns `STATUS_SUCCESS` and leaves `OpenCount = 0`, which is not one more than before. -/
theorem Open_count_wraps :
    MemfsFileNodeMapGet volBusy.Memfs.FileNodeMap [92] = some 0 ∧
    (volBusy.Heap.node 0).map (fun n => n.OpenCount) = some 4294967295 ∧
    (Open FspPathSuffix volBusy [92]).map (fun r => r.Result) = some STATUS_SUCCESS ∧
    (Open FspPathSuffix volBusy [92]).map
      (fun r => (r.state.Heap.node 0).map (fun n => n.OpenCount)) = some (some 0) := by
  decide

/-- Claim C8, amended: for a name in the map whose node is live, `Open` returns
`STATUS_SUCCESS`, sets the `OpenCount` of that node to its successor modulo `2 ^ 32`
(exactly one more whenever that does not overflow the `ULONG`), leaves the other fields of
the node, the volume record with its map and quotas, and every other node as they were,
and reports the attributes, allocation size and file size of the node and its address.
No quota enters: the statement holds whatever `MaxFileNodes` and `MaxFileSize` are. -/
theorem Open_existing (Remain : Path → Path) (s : State) (p : Path) (a : Nat)
    (FileNode : MEMFS_FILE_NODE)
    (hp : MemfsFileNodeMapGet s.Memfs.FileNodeMap p = some a)
    (hn : s.Heap.node a = some FileNode) :
    ∃ r : NodeResult,
      Open Remain s p = some r ∧
      r.Result = STATUS_SUCCESS ∧
      r.state.Memfs = s.Memfs ∧
      r.state.Heap.node a
        = some { FileNode with OpenCount := (FileNode.OpenCount + 1) % ULONG_RANGE } ∧
      (FileNode.OpenCount + 1 < ULONG_RANGE →
        r.state.Heap.node a = some { FileNode with OpenCount := FileNode.OpenCount + 1 }) ∧
      (∀ b, b ≠ a → r.state.Heap.node b = s.Heap.node b) ∧
      r.NodeInfo = some { FileAttributes := FileNode.FileAttributes,
                          AllocationSize := FileNode.AllocationSize,
                          FileSize := FileNode.FileSize,
                          FileNode := a } := by
  have hlt := Heap.node_lt s.Heap a FileNode hn
  have hO : Open Remain s p = some
      ⟨STATUS_SUCCESS,
        { s with
          Heap := (s.Heap.set a
            (some { FileNode with OpenCount := (FileNode.OpenCount + 1) % ULONG_RANGE })) },
        some { FileAttributes := FileNode.FileAttributes,
               AllocationSize := FileNode.AllocationSize,
               FileSize := FileNode.FileSize,
               FileNode := a }⟩ := by
    simp only [Open, hp, hn]
  refine ⟨_, hO, rfl, rfl, ?_, ?_, ?_, rfl⟩
  · exact Heap.node_set_self _ _ _ hlt
  · intro hsmall
    rw [Heap.node_set_self _ _ _ hlt, Nat.mod_eq_of_lt hsmall]
  · intro b hb
    exact Heap.node_set_other _ _ _ _ hb

/-- Claim C8, amended, instance: opening the root of a volume whose node quota is used up. -/
theorem Open_existing_witness :
    ∃ r : NodeResult,
      Open FspPathSuffix volFull [92] = some r ∧
      r.Result = STATUS_SUCCESS ∧
      r.state.Memfs = volFull.Memfs ∧
      r.state.Heap.node 0
        = some { rootNode with OpenCount := (rootNode.OpenCount + 1) % ULONG_RANGE } ∧
      (rootNode.OpenCount + 1 < ULONG_RANGE →
        r.state.Heap.node 0 = some { rootNode with OpenCount := rootNode.OpenCount + 1 }) ∧
      (∀ b, b ≠ 0 → r.state.Heap.node b = volFull.Heap.node b) ∧
      r.NodeInfo = some { FileAttributes := rootNode.FileAttributes,
                          AllocationSize := rootNode.AllocationSize,
                          FileSize := rootNode.FileSize,
                          FileNode := 0 } :=
  Open_existing FspPathSuffix volFull [92] 0 rootNode (by decide) (by decide)

/-- Claim C9: on the handle of a live node, `Overwrite` returns `STATUS_SUCCESS`; the node
afterwards is the node before with `FileSize = 0` and with the attributes replaced by the
argument when `ReplaceFileAttributes` is set and or-ed bitwise with it otherwise, so that
name, security blob, allocation size, data and `OpenCount` are unchanged; the volume
record with its map, and every other node, are unchanged; and `SizeInfo` reports the
unchanged allocation size and file size 0. -/
theorem Overwrite_effect (s : State) (FileNode0 : Nat) (FileNode : MEMFS_FILE_NODE)
    (FileAttributes : Nat) (ReplaceFileAttributes : Bool)
    (hn : s.Heap.node FileNode0 = some FileNode) :
    ∃ r : OverwriteResult,
      Overwrite s FileNode0 FileAttributes ReplaceFileAttributes = some r ∧
      r.Result = STATUS_SUCCESS ∧
      r.state.Memfs = s.Memfs ∧
      r.state.Heap.node FileNode0
        = some { FileNode with
                 FileAttributes :=
                   if ReplaceFileAttributes then FileAttributes
                   else FileNode.FileAttributes ||| FileAttributes
                 FileSize := 0 } ∧
      (∀ b, b ≠ FileNode0 → r.state.Heap.node b = s.Heap.node b) ∧
      r.SizeInfo = { AllocationSize := FileNode.AllocationSize, FileSize := 0 } := by
  have hlt := Heap.node_lt s.Heap FileNode0 FileNode hn
  have hO : Overwrite s FileNode0 FileAttributes ReplaceFileAttributes = some
      ⟨STATUS_SUCCESS,
        { s with
          Heap := (s.Heap.set FileNode0
            (some { FileNode with
                    FileAttributes :=
                      if ReplaceFileAttributes then FileAttributes
                      else FileNode.FileAttributes ||| FileAttributes
                    FileSize := 0 })) },
        { AllocationSize := FileNode.AllocationSize, FileSize := 0 }⟩ := by
    cases ReplaceFileAttributes <;> simp [Overwrite, hn]
  refine ⟨_, hO, rfl, rfl, ?_, ?_, rfl⟩
  · exact Heap.node_set_self _ _ _ hlt
  · intro b hb
    exact Heap.node_set_other _ _ _ _ hb

/-- Claim C10: on the handle of a live node, `Cleanup` without `Delete` returns the state
it was given, and `Cleanup` with `Delete` makes the name stored in the node absent from
the map, whatever its `OpenCount`, leaves the lookup of every other name and the quotas
as they were, and leaves the node store as it was: no `OpenCount` changes and nothing is
released. -/
theorem Cleanup_effect (s : State) (FileNode0 : Nat) (FileNode : MEMFS_FILE_NODE)
    (hn : s.Heap.node FileNode0 = some FileNode) :
    Cleanup s FileNode0 false = some s ∧
    ∃ t : State,
      Cleanup s FileNode0 true = some t ∧
      MemfsFileNodeMapGet t.Memfs.FileNodeMap FileNode.FileName = none ∧
      (∀ q, q ≠ FileNode.FileName →
        MemfsFileNodeMapGet t.Memfs.FileNodeMap q = MemfsFileNodeMapGet s.Memfs.FileNodeMap q) ∧
      t.Heap = s.Heap ∧
      t.Memfs.MaxFileNodes = s.Memfs.MaxFileNodes ∧
      t.Memfs.MaxFileSize = s.Memfs.MaxFileSize := by
  have hC : Cleanup s FileNode0 true = some
      { s with Memfs :=
        { s.Memfs with
          FileNodeMap := MemfsFileNodeMapRemove s.Memfs.FileNodeMap FileNode.FileName } } := by
    simp only [Cleanup, hn, if_true]
  refine ⟨rfl, _, hC, ?_, ?_, rfl, rfl, rfl⟩
  · exact MemfsFileNodeMapGet_remove_self _ _
  · intro q hq
    exact MemfsFileNodeMapGet_remove_other _ _ _ hq


/-- Claim C9, instances: merging and replacing the attributes of the file `\a`. -/
theorem Overwrite_effect_witness :
    (∃ r : OverwriteResult,
      Overwrite volSec 1 2 false = some r ∧
      r.Result = STATUS_SUCCESS ∧
      r.state.Memfs = volSec.Memfs ∧
      r.state.Heap.node 1
        = some { secNode with
                 FileAttributes := if false then 2 else secNode.FileAttributes ||| 2
                 FileSize := 0 } ∧
      (∀ b, b ≠ 1 → r.state.Heap.node b = volSec.Heap.node b) ∧
      r.SizeInfo = { AllocationSize := secNode.AllocationSize, FileSize := 0 }) ∧
    (∃ r : OverwriteResult,
      Overwrite volSec 1 2 true = some r ∧
      r.Result = STATUS_SUCCESS ∧
      r.state.Memfs = volSec.Memfs ∧
      r.state.Heap.node 1
        = some { secNode with
                 FileAttributes := if true then 2 else secNode.FileAttributes ||| 2
                 FileSize := 0 } ∧
      (∀ b, b ≠ 1 → r.state.Heap.node b = volSec.Heap.node b) ∧
      r.SizeInfo = { AllocationSize := secNode.AllocationSize, FileSize := 0 }) :=
  ⟨Overwrite_effect volSec 1 secNode 2 false rfl, Overwrite_effect volSec 1 secNode 2 true rfl⟩

/-- Claim C10, instance: `Cleanup` on the handle of the file `\a`. -/
theorem Cleanup_effect_witness :
    Cleanup volSec 1 false = some volSec ∧
    ∃ t : State,
      Cleanup volSec 1 true = some t ∧
      MemfsFileNodeMapGet t.Memfs.FileNodeMap secNode.FileName = none ∧
      (∀ q, q ≠ secNode.FileName →
        MemfsFileNodeMapGet t.Memfs.FileNodeMap q
          = MemfsFileNodeMapGet volSec.Memfs.FileNodeMap q) ∧
      t.Heap = volSec.Heap ∧
      t.Memfs.MaxFileNodes = volSec.Memfs.MaxFileNodes ∧
      t.Memfs.MaxFileSize = volSec.Memfs.MaxFileSize :=
  Cleanup_effect volSec 1 secNode rfl


/-- The shape of a defined outcome of `Open`: the volume record is kept, and the store is
kept or has the handle count of one live node rewritten. -/
theorem Open_shape (Remain : Path → Path) (s : State) (p : Path) (r : NodeResult)
    (h : Open Remain s p = some r) :
    r.state.Memfs = s.Memfs ∧
      (r.state.Heap = s.Heap ∨
        ∃ a n c, s.Heap.node a = some n ∧
          r.state.Heap = s.Heap.set a (some { n with OpenCount := c })) := by
  unfold Open at h
  cases hg : MemfsFileNodeMapGet s.Memfs.FileNodeMap p with
  | none =>
    simp only [hg, Option.some.injEq] at h
    subst h
    exact ⟨rfl, Or.inl rfl⟩
  | some a =>
    cases hn : s.Heap.node a with
    | none => simp [hg, hn] at h
    | some n =>
      simp only [hg, hn, Option.some.injEq] at h
      subst h
      exact ⟨rfl, Or.inr ⟨a, n, _, hn, rfl⟩⟩

/-- The shape of a defined outcome of `Overwrite`: the volume record is kept, and the
live node of the handle is rewritten with file size 0, same name and same allocation size. -/
theorem Overwrite_shape (s : State) (FileNode0 FileAttributes : Nat)
    (ReplaceFileAttributes : Bool) (r : OverwriteResult)
    (h : Overwrite s FileNode0 FileAttributes ReplaceFileAttributes = some r) :
    r.state.Memfs = s.Memfs ∧
      ∃ n m, s.Heap.node FileNode0 = some n ∧
        r.state.Heap = s.Heap.set FileNode0 (some m) ∧
        m.FileName = n.FileName ∧ m.AllocationSize = n.AllocationSize ∧ m.FileSize = 0 := by
  unfold Overwrite at h
  cases hn : s.Heap.node FileNode0 with
  | none => simp [hn] at h
  | some n =>
    simp only [hn, Option.some.injEq] at h
    subst h
    refine ⟨rfl, n, _, rfl, rfl, ?_, ?_, rfl⟩
    · cases ReplaceFileAttributes <;> rfl
    · cases ReplaceFileAttributes <;> rfl

/-- The shape of a defined outcome of `Cleanup`: the store and the quotas are kept, and
the map is kept or has one key removed. -/
theorem Cleanup_shape (s : State) (FileNode0 : Nat) (Delete : Bool) (t : State)
    (h : Cleanup s FileNode0 Delete = some t) :
    t.Heap = s.Heap ∧ t.Memfs.MaxFileNodes = s.Memfs.MaxFileNodes ∧
      t.Memfs.MaxFileSize = s.Memfs.MaxFileSize ∧
      (t.Memfs.FileNodeMap = s.Memfs.FileNodeMap ∨
        ∃ k, t.Memfs.FileNodeMap = MemfsFileNodeMapRemove s.Memfs.FileNodeMap k) := by
  unfold Cleanup at h
  cases Delete with
  | false =>
    simp only [Bool.false_eq_true, if_false, Option.some.injEq] at h
    subst h
    exact ⟨rfl, rfl, rfl, Or.inl rfl⟩
  | true =>
    cases hn : s.Heap.node FileNode0 with
    | none => simp [hn] at h
    | some n =>
      simp only [hn, if_true, Option.some.injEq] at h
      subst h
      exact ⟨rfl, rfl, rfl, Or.inr ⟨_, rfl⟩⟩

/-- The shape of a defined outcome of `Close`: the volume record is kept, and the cell of
the live node of the handle is released or has its handle count rewritten. -/
theorem Close_shape (s : State) (FileNode0 : Nat) (t : State)
    (h : Close s FileNode0 = some t) :
    t.Memfs = s.Memfs ∧
      ∃ n, s.Heap.node FileNode0 = some n ∧
        (t.Heap = s.Heap.set FileNode0 none ∨
          ∃ c, t.Heap = s.Heap.set FileNode0 (some { n with OpenCount := c })) := by
  unfold Close at h
  cases hn : s.Heap.node FileNode0 with
  | none => simp [hn] at h
  | some n =>
    simp only [hn] at h
    split_ifs at h with hz
    · simp only [Option.some.injEq] at h
      subst h
      exact ⟨rfl, n, rfl, Or.inl rfl⟩
    · simp only [Option.some.injEq] at h
      subst h
      exact ⟨rfl, n, rfl, Or.inr ⟨_, rfl⟩⟩

/-- Removing a key does not lengthen the map. -/
theorem MemfsFileNodeMapRemove_count (m : MEMFS_FILE_NODE_MAP) (k : Path) :
    MemfsFileNodeMapCount (MemfsFileNodeMapRemove m k) ≤ MemfsFileNodeMapCount m :=
  List.length_filter_le _ _

/-- Rounding an accepted request stays within a quota that is itself rounded. -/
theorem align_up_le_quota (x M : Nat) (hx : x ≤ FSP_FSCTL_ALIGN_UP M MEMFS_SECTOR_SIZE) :
    FSP_FSCTL_ALIGN_UP (x % ULONG_RANGE) MEMFS_SECTOR_SIZE
      ≤ FSP_FSCTL_ALIGN_UP M MEMFS_SECTOR_SIZE :=
  (align_up_exact x M hx).2.2 _ (Nat.dvd_mul_left _ _) hx

/-- Claim C11: on the handle of a live node whose `OpenCount` is a `ULONG` value `k ≥ 1`,
`Close` leaves the volume record, hence the membership of the map, and every other node as
they were.  When `k - 1` is positive the node stays allocated, unchanged but for
`OpenCount = k - 1`: nothing is released.  When `k - 1` is zero the cell of the node is
released, which stands for `MemfsFileNodeDelete` freeing the data buffer, the security
buffer and the node; the cell is released in that case only. -/
theorem Close_effect (s : State) (FileNode0 : Nat) (FileNode : MEMFS_FILE_NODE) (k : Nat)
    (hn : s.Heap.node FileNode0 = some FileNode)
    (hk : FileNode.OpenCount = k) (h1 : 1 ≤ k) (hu : k < ULONG_RANGE) :
    ∃ t : State,
      Close s FileNode0 = some t ∧
      t.Memfs = s.Memfs ∧
      (∀ b, b ≠ FileNode0 → t.Heap.node b = s.Heap.node b) ∧
      (0 < k - 1 → t.Heap.node FileNode0 = some { FileNode with OpenCount := k - 1 }) ∧
      (k - 1 = 0 → t.Heap.node FileNode0 = none) ∧
      (t.Heap.node FileNode0 = none ↔ k - 1 = 0) := by
  have hlt := Heap.node_lt s.Heap FileNode0 FileNode hn
  have hdec : (FileNode.OpenCount + (ULONG_RANGE - 1)) % ULONG_RANGE = k - 1 := by
    rw [hk]
    unfold ULONG_RANGE at *
    omega
  by_cases hz : k - 1 = 0
  · have hC : Close s FileNode0 = some { s with Heap := MemfsFileNodeDelete s.Heap FileNode0 } := by
      simp only [Close, hn, hdec, hz, if_true]
    refine ⟨_, hC, rfl, ?_, ?_, ?_, ?_⟩
    · intro b hb
      exact Heap.node_set_other _ _ _ _ hb
    · intro hpos
      omega
    · intro _
      exact Heap.node_set_self _ _ _ hlt
    · exact ⟨fun _ => hz, fun _ => Heap.node_set_self _ _ _ hlt⟩
  · have hC : Close s FileNode0 = some
        { s with
          Heap := (s.Heap.set FileNode0 (some { FileNode with OpenCount := k - 1 })) } := by
      simp only [Close, hn, hdec, hz, if_false]
    refine ⟨_, hC, rfl, ?_, ?_, ?_, ?_⟩
    · intro b hb
      exact Heap.node_set_other _ _ _ _ hb
    · intro _
      exact Heap.node_set_self _ _ _ hlt
    · intro h0
      exact absurd h0 hz
    · constructor
      · intro hnone
        have := Heap.node_set_self s.Heap FileNode0
          (some { FileNode with OpenCount := k - 1 }) hlt
        rw [this] at hnone
        exact absurd hnone (by simp)
      · intro h0
        exact absurd h0 hz

/-- Claim C11, instances: closing one of two handles of the file `\a`, and closing the
only handle of the root of `volRoot`. -/
theorem Close_effect_witness :
    (∃ t : State,
      Close volTwo 1 = some t ∧
      t.Memfs = volTwo.Memfs ∧
      (∀ b, b ≠ 1 → t.Heap.node b = volTwo.Heap.node b) ∧
      (0 < 2 - 1 → t.Heap.node 1 = some { twoNode with OpenCount := 2 - 1 }) ∧
      (2 - 1 = 0 → t.Heap.node 1 = none) ∧
      (t.Heap.node 1 = none ↔ 2 - 1 = 0)) ∧
    (∃ t : State,
      Close volRoot 0 = some t ∧
      t.Memfs = volRoot.Memfs ∧
      (∀ b, b ≠ 0 → t.Heap.node b = volRoot.Heap.node b) ∧
      (0 < 1 - 1 → t.Heap.node 0 = some { rootNode with OpenCount := 1 - 1 }) ∧
      (1 - 1 = 0 → t.Heap.node 0 = none) ∧
      (t.Heap.node 0 = none ↔ 1 - 1 = 0)) :=
  ⟨Close_effect volTwo 1 twoNode 2 rfl rfl (by decide) (by decide),
   Close_effect volRoot 0 rootNode 1 rfl rfl (by decide) (by decide)⟩

/-- Claim C12, evaluated: after a successful `Create` of `\a` under the root, closing the
handle it returned releases the node at address 1 while the map still resolves `\a` to
that address; the tabled node is deallocated, and a following `Open` of `\a` reads the
released node, so it has no defined result. -/
theorem Close_leaves_released_node_tabled :
    (Create FspPathSuffix allocOk volRoot [92, 97] 32 none 0).Result = STATUS_SUCCESS ∧
    (Create FspPathSuffix allocOk volRoot [92, 97] 32 none 0).NodeInfo.map
      (fun i => i.FileNode) = some 1 ∧
    (Close (Create FspPathSuffix allocOk volRoot [92, 97] 32 none 0).state 1).map
      (fun t => (MemfsFileNodeMapGet t.Memfs.FileNodeMap [92, 97], t.Heap.node 1))
      = some (some 1, none) ∧
    (Close (Create FspPathSuffix allocOk volRoot [92, 97] 32 none 0).state 1).bind
      (fun t => Open FspPathSuffix t [92, 97]) = none := by
  decide

/-- Claim C13 fails as stated: `MemfsCreate` with the quotas 100 and 65536 builds a volume
with an empty map, and on it `Create` of `\a.txt` returns `STATUS_OBJECT_PATH_NOT_FOUND`,
not success, leaving the map empty. -/
theorem scenario_fails_on_fresh_volume :
    MemfsCreate true true STATUS_SUCCESS 100 65536 = (STATUS_SUCCESS, some volEmpty) ∧
    (Create FspPathSuffix allocOk volEmpty aTxt FILE_ATTRIBUTE_ARCHIVE none 1000).Result
      = STATUS_OBJECT_PATH_NOT_FOUND ∧
    (Create FspPathSuffix allocOk volEmpty aTxt FILE_ATTRIBUTE_ARCHIVE none 1000).state
      = volEmpty := by
  decide

/-- Claim C13, amended: on a volume with the quotas 100 and 65536 whose map holds the
root, the scenario runs as the spec tells it.  `Create` of `\a.txt` with 1000 bytes
succeeds with allocation size 1024, file size 0 and `OpenCount = 1`; `Open` succeeds with
`OpenCount = 2` and the same sizes; one `Close` leaves `OpenCount = 1` and the entry in the
map, so `Create` fails with `STATUS_OBJECT_NAME_COLLISION`; `Cleanup` with `Delete` removes
the entry, after which `Create` succeeds with a fresh node at another address; and closing
the original handle releases the first node while the fresh one stays tabled. -/
theorem scenario_on_volume_with_root :
    (scenario1.Result = STATUS_SUCCESS ∧
      scenario1.NodeInfo = some { FileAttributes := FILE_ATTRIBUTE_ARCHIVE,
                                  AllocationSize := 1024, FileSize := 0, FileNode := 1 } ∧
      (scenario1.state.Heap.node 1).map
        (fun n => (n.AllocationSize, n.FileSize, n.OpenCount)) = some (1024, 0, 1)) ∧
    (scenario2.map (fun r => (r.Result, r.NodeInfo))
        = some (STATUS_SUCCESS,
            some { FileAttributes := FILE_ATTRIBUTE_ARCHIVE,
                   AllocationSize := 1024, FileSize := 0, FileNode := 1 }) ∧
      scenario2.map (fun r => (r.state.Heap.node 1).map (fun n => n.OpenCount))
        = some (some 2)) ∧
    (scenario3.map (fun t => (t.Heap.node 1).map (fun n => n.OpenCount)) = some (some 1) ∧
      scenario3.map (fun t => MemfsFileNodeMapGet t.Memfs.FileNodeMap aTxt) = some (some 1) ∧
      scenario3.map
          (fun t => (Create FspPathSuffix allocOk t aTxt FILE_ATTRIBUTE_ARCHIVE none 1000).Result)
        = some STATUS_OBJECT_NAME_COLLISION) ∧
    (scenario4.map (fun t => MemfsFileNodeMapGet t.Memfs.FileNodeMap aTxt) = some none ∧
      scenario4.map (fun t => (t.Heap.node 1).map (fun n => n.OpenCount)) = some (some 1)) ∧
    (scenario5.map (fun r => (r.Result, r.NodeInfo))
        = some (STATUS_SUCCESS,
            some { FileAttributes := FILE_ATTRIBUTE_ARCHIVE,
                   AllocationSize := 1024, FileSize := 0, FileNode := 2 }) ∧
      scenario5.map (fun r => MemfsFileNodeMapGet r.state.Memfs.FileNodeMap aTxt)
        = some (some 2)) ∧
    (scenario6.map (fun t => t.Heap.node 1) = some none ∧
      scenario6.map (fun t => (t.Heap.node 2).map (fun n => n.OpenCount)) = some (some 1) ∧
      scenario6.map (fun t => MemfsFileNodeMapGet t.Memfs.FileNodeMap aTxt)
        = some (some 2)) := by
  refine ⟨?_, ?_, ?_, ?_, ?_, ?_⟩ <;> decide

/-- Claim C14: whatever the kind of the device, `FspQuerySecurity` and `FspSetSecurity`
return `STATUS_INVALID_DEVICE_REQUEST`.  A device of the volume kind is forwarded to the
volume-level handler, which returns that status on every input, and every other kind is
answered with it by the router itself.  It holds for every value of the enumerator
`FspFsvolDeviceExtensionKind`. -/
theorem security_requests_unsupported (FspFsvolDeviceExtensionKind DeviceObject : Nat) :
    FspQuerySecurity FspFsvolDeviceExtensionKind DeviceObject IRP_MJ_QUERY_SECURITY
      = some STATUS_INVALID_DEVICE_REQUEST ∧
    FspSetSecurity FspFsvolDeviceExtensionKind DeviceObject IRP_MJ_SET_SECURITY
      = some STATUS_INVALID_DEVICE_REQUEST ∧
    FspQuerySecurity FspFsvolDeviceExtensionKind FspFsvolDeviceExtensionKind
        IRP_MJ_QUERY_SECURITY
      = some (FspFsvolQuerySecurity FspFsvolDeviceExtensionKind IRP_MJ_QUERY_SECURITY) ∧
    FspSetSecurity FspFsvolDeviceExtensionKind FspFsvolDeviceExtensionKind IRP_MJ_SET_SECURITY
      = some (FspFsvolSetSecurity FspFsvolDeviceExtensionKind IRP_MJ_SET_SECURITY) ∧
    (∀ d i, FspFsvolQuerySecurity d i = STATUS_INVALID_DEVICE_REQUEST) ∧
    (∀ d i, FspFsvolSetSecurity d i = STATUS_INVALID_DEVICE_REQUEST) := by
  refine ⟨?_, ?_, ?_, ?_, fun _ _ => rfl, fun _ _ => rfl⟩
  · by_cases h : DeviceObject = FspFsvolDeviceExtensionKind <;>
      simp [FspQuerySecurity, FspFsvolQuerySecurity, h]
  · by_cases h : DeviceObject = FspFsvolDeviceExtensionKind <;>
      simp [FspSetSecurity, FspFsvolSetSecurity, h]
  · simp [FspQuerySecurity]
  · simp [FspSetSecurity]

/-- Claim C15: on a volume whose `MaxFileSize` is the one a successful `MemfsCreate` stored
and whose map holds at most `MaxFileNodes` entries, every `Create` and every defined
outcome of `Open`, `Overwrite`, `Cleanup` and `Close` leads to a state whose map again
holds at most `MaxFileNodes` entries, with both quotas unchanged; and the node a
successful `Create` stores has an allocation size, the request rounded up to the sector
size, that does not exceed `MaxFileSize`. -/
theorem quota_invariant (Remain : Path → Path) (s : State) (mallocOk mapOk : Bool)
    (fsCreate : NTSTATUS) (MaxFileNodes MaxFileSize : Nat) (v : State)
    (hv : MemfsCreate mallocOk mapOk fsCreate MaxFileNodes MaxFileSize = (STATUS_SUCCESS, some v))
    (hmax : s.Memfs.MaxFileSize = v.Memfs.MaxFileSize)
    (hcount : MemfsFileNodeMapCount s.Memfs.FileNodeMap ≤ s.Memfs.MaxFileNodes) :
    (∀ (A : Allocator) (p : Path) (FileAttributes : Nat)
        (SecurityDescriptor : Option (List Nat)) (AllocationSize : Nat),
      QuotaKept s (Create Remain A s p FileAttributes SecurityDescriptor AllocationSize).state ∧
      ((Create Remain A s p FileAttributes SecurityDescriptor AllocationSize).Result
          = STATUS_SUCCESS →
        ∃ n : MEMFS_FILE_NODE,
          (Create Remain A s p FileAttributes SecurityDescriptor AllocationSize).state.Heap.node
            s.Heap.length = some n ∧
          n.AllocationSize = FSP_FSCTL_ALIGN_UP (AllocationSize % ULONG_RANGE) MEMFS_SECTOR_SIZE ∧
          n.AllocationSize ≤ s.Memfs.MaxFileSize)) ∧
    (∀ p r, Open Remain s p = some r → QuotaKept s r.state) ∧
    (∀ FileNode0 FileAttributes ReplaceFileAttributes r,
      Overwrite s FileNode0 FileAttributes ReplaceFileAttributes = some r →
      QuotaKept s r.state) ∧
    (∀ FileNode0 Delete t, Cleanup s FileNode0 Delete = some t → QuotaKept s t) ∧
    (∀ FileNode0 t, Close s FileNode0 = some t → QuotaKept s t) := by
  refine ⟨?_, ?_, ?_, ?_, ?_⟩
  · intro A p FileAttributes SecurityDescriptor AllocationSize
    rcases Create_cases Remain A s p FileAttributes SecurityDescriptor AllocationSize with
      ⟨hfail, _, hst⟩ | ⟨hok, _, _, hlt, hle, _, sec, dat, hst, _, _, _⟩
    · constructor
      · rcases hst with hst | hst <;> rw [hst] <;> exact ⟨hcount, rfl, rfl⟩
      · intro hok
        exact absurd hok hfail
    · rw [hst]
      constructor
      · refine ⟨?_, rfl, rfl⟩
        simp only [MemfsFileNodeMapCount, List.length_append, List.length_singleton] at hlt ⊢
        omega
      · intro _
        refine ⟨_, Heap.node_append_new s.Heap _, rfl, ?_⟩
        rw [hmax, (MemfsCreate_MaxFileSize _ _ _ _ _ _ hv).1] at hle ⊢
        exact align_up_le_quota AllocationSize MaxFileSize hle
  · intro p r h
    have hm := (Open_shape Remain s p r h).1
    unfold QuotaKept
    rw [hm]
    exact ⟨hcount, rfl, rfl⟩
  · intro FileNode0 FileAttributes ReplaceFileAttributes r h
    have hm := (Overwrite_shape s FileNode0 FileAttributes ReplaceFileAttributes r h).1
    unfold QuotaKept
    rw [hm]
    exact ⟨hcount, rfl, rfl⟩
  · intro FileNode0 Delete t h
    obtain ⟨_, hn, hs, hmap⟩ := Cleanup_shape s FileNode0 Delete t h
    refine ⟨?_, hn, hs⟩
    rw [hn]
    rcases hmap with hmap | ⟨k, hmap⟩
    · rw [hmap]
      exact hcount
    · rw [hmap]
      exact Nat.le_trans (MemfsFileNodeMapRemove_count _ _) hcount
  · intro FileNode0 t h
    have hm := (Close_shape s FileNode0 t h).1
    unfold QuotaKept
    rw [hm]
    exact ⟨hcount, rfl, rfl⟩

/-- Claim C15, instances on the volume with the quotas 100 and 65536 that holds the root:
a successful `Create` of `\a`, and `Open`, `Overwrite`, `Cleanup` and `Close` on the root. -/
theorem quota_invariant_witness :
    (QuotaKept volQuota (Create FspPathSuffix allocOk volQuota [92, 97] 32 none 1000).state ∧
      ((Create FspPathSuffix allocOk volQuota [92, 97] 32 none 1000).Result = STATUS_SUCCESS →
        ∃ n : MEMFS_FILE_NODE,
          (Create FspPathSuffix allocOk volQuota [92, 97] 32 none 1000).state.Heap.node
            volQuota.Heap.length = some n ∧
          n.AllocationSize = FSP_FSCTL_ALIGN_UP (1000 % ULONG_RANGE) MEMFS_SECTOR_SIZE ∧
          n.AllocationSize ≤ volQuota.Memfs.MaxFileSize)) ∧
    QuotaKept volQuota
      { volQuota with Heap := [some { rootNode with OpenCount := 2 }] } ∧
    QuotaKept volQuota
      { volQuota with Heap := [some { rootNode with FileAttributes := 48 }] } ∧
    QuotaKept volQuota
      { volQuota with Memfs := { volQuota.Memfs with FileNodeMap := [] } } ∧
    QuotaKept volQuota { volQuota with Heap := [none] } :=
  ⟨(quota_invariant FspPathSuffix volQuota true true STATUS_SUCCESS 100 65536 volEmpty
      (by decide) (by decide) (by decide)).1 allocOk [92, 97] 32 none 1000,
   (quota_invariant FspPathSuffix volQuota true true STATUS_SUCCESS 100 65536 volEmpty
      (by decide) (by decide) (by decide)).2.1 [92]
      ⟨STATUS_SUCCESS, { volQuota with Heap := [some { rootNode with OpenCount := 2 }] },
        some { FileAttributes := 16, AllocationSize := 0, FileSize := 0, FileNode := 0 }⟩
      (by decide),
   (quota_invariant FspPathSuffix volQuota true true STATUS_SUCCESS 100 65536 volEmpty
      (by decide) (by decide) (by decide)).2.2.1 0 32 false
      ⟨STATUS_SUCCESS, { volQuota with Heap := [some { rootNode with FileAttributes := 48 }] },
        { AllocationSize := 0, FileSize := 0 }⟩
      (by decide),
   (quota_invariant FspPathSuffix volQuota true true STATUS_SUCCESS 100 65536 volEmpty
      (by decide) (by decide) (by decide)).2.2.2.1 0 true
      { volQuota with Memfs := { volQuota.Memfs with FileNodeMap := [] } }
      (by decide),
   (quota_invariant FspPathSuffix volQuota true true STATUS_SUCCESS 100 65536 volEmpty
      (by decide) (by decide) (by decide)).2.2.2.2 0
      { volQuota with Heap := [none] }
      (by decide)⟩

/-- Reading a cell after a write: the written value at the written address when it is
allocated, the old value everywhere else. -/
theorem Heap.node_set (h : Heap) (a b : Nat) (x : Option MEMFS_FILE_NODE) :
    Heap.node (h.set a x) b = if b = a ∧ a < h.length then x else Heap.node h b := by
  by_cases hb : b = a
  · subst hb
    by_cases hlt : b < h.length
    · rw [Heap.node_set_self _ _ _ hlt]
      simp [hlt]
    · have : h.set b x = h := List.set_eq_of_length_le (Nat.le_of_not_lt hlt)
      rw [this]
      simp [hlt]
  · rw [Heap.node_set_other _ _ _ _ hb]
    simp [hb]

/-- Writing a cell keeps the invariant of the store when the value written is a released
cell or a node that satisfies the invariant. -/
theorem HeapInv_set (h : Heap) (a : Nat) (x : Option MEMFS_FILE_NODE) (hinv : HeapInv h)
    (hx : ∀ n, x = some n → NodeInv n) : HeapInv (h.set a x) := by
  intro b n hb
  rw [Heap.node_set] at hb
  split_ifs at hb
  · exact hx n hb
  · exact hinv b n hb

/-- Appending a cell keeps the invariant of the store when the value appended is a
released cell or a node that satisfies the invariant. -/
theorem HeapInv_append (h : Heap) (x : Option MEMFS_FILE_NODE) (hinv : HeapInv h)
    (hx : ∀ n, x = some n → NodeInv n) : HeapInv (h ++ [x]) := by
  intro b n hb
  by_cases hlt : b < h.length
  · rw [Heap.node_append_old _ _ _ hlt] at hb
    exact hinv b n hb
  · by_cases heq : b = h.length
    · subst heq
      rw [Heap.node_append_new] at hb
      exact hx n hb
    · have hgt : (h ++ [x]).length ≤ b := by
        simp only [List.length_append, List.length_singleton]
        omega
      unfold Heap.node at hb
      rw [List.getD_eq_default _ _ hgt] at hb
      exact absurd hb (by simp)

/-- The two nodes of the volume `volSec` satisfy the invariant. -/
theorem HeapInv_volSec : HeapInv volSec.Heap := by
  intro a n h
  match a, h with
  | 0, h =>
    have : n = rootNode := by
      simpa [volSec, Heap.node] using h.symm
    subst this
    decide
  | 1, h =>
    have : n = secNode := by
      simpa [volSec, Heap.node] using h.symm
    subst this
    decide
  | k + 2, h =>
    simp [volSec, Heap.node] at h

/-- Claim C17: the node a successful `Create` stores has a name shorter than `MAX_PATH`,
an allocation size that is a multiple of 512 and a file size within its allocation size;
and when every live node of the store satisfies these three constraints, so does every
live node after any `Create` and after every defined outcome of `Open`, `Overwrite`,
`Cleanup` and `Close`. -/
theorem node_invariant (Remain : Path → Path) (s : State) :
    (∀ (A : Allocator) (p : Path) (FileAttributes : Nat)
        (SecurityDescriptor : Option (List Nat)) (AllocationSize : Nat),
      (Create Remain A s p FileAttributes SecurityDescriptor AllocationSize).Result
        = STATUS_SUCCESS →
      ∃ n : MEMFS_FILE_NODE,
        (Create Remain A s p FileAttributes SecurityDescriptor AllocationSize).state.Heap.node
          s.Heap.length = some n ∧
        n.FileName.length < MAX_PATH ∧ MEMFS_SECTOR_SIZE ∣ n.AllocationSize ∧
        n.FileSize ≤ n.AllocationSize) ∧
    (HeapInv s.Heap →
      (∀ (A : Allocator) (p : Path) (FileAttributes : Nat)
          (SecurityDescriptor : Option (List Nat)) (AllocationSize : Nat),
        HeapInv (Create Remain A s p FileAttributes SecurityDescriptor
          AllocationSize).state.Heap) ∧
      (∀ p r, Open Remain s p = some r → HeapInv r.state.Heap) ∧
      (∀ FileNode0 FileAttributes ReplaceFileAttributes r,
        Overwrite s FileNode0 FileAttributes ReplaceFileAttributes = some r →
        HeapInv r.state.Heap) ∧
      (∀ FileNode0 Delete t, Cleanup s FileNode0 Delete = some t → HeapInv t.Heap) ∧
      (∀ FileNode0 t, Close s FileNode0 = some t → HeapInv t.Heap)) := by
  have hnew : ∀ (A : Allocator) (p : Path) (FileAttributes : Nat)
      (SecurityDescriptor : Option (List Nat)) (AllocationSize : Nat),
      (Create Remain A s p FileAttributes SecurityDescriptor AllocationSize).Result
        = STATUS_SUCCESS →
      ∃ n : MEMFS_FILE_NODE,
        (Create Remain A s p FileAttributes SecurityDescriptor AllocationSize).state.Heap
          = s.Heap ++ [some n] ∧
        n.FileName.length < MAX_PATH ∧ MEMFS_SECTOR_SIZE ∣ n.AllocationSize ∧
        n.FileSize ≤ n.AllocationSize := by
    intro A p FileAttributes SecurityDescriptor AllocationSize hok
    rcases Create_cases Remain A s p FileAttributes SecurityDescriptor AllocationSize with
      ⟨hfail, _⟩ | ⟨_, _, _, _, _, hlen, sec, dat, hst, _, _, _⟩
    · exact absurd hok hfail
    · rw [hst]
      exact ⟨_, rfl, hlen, Nat.dvd_mul_left _ _, Nat.zero_le _⟩
  constructor
  · intro A p FileAttributes SecurityDescriptor AllocationSize hok
    obtain ⟨n, hst, hn⟩ := hnew A p FileAttributes SecurityDescriptor AllocationSize hok
    rw [hst]
    exact ⟨n, Heap.node_append_new s.Heap _, hn⟩
  · intro hinv
    refine ⟨?_, ?_, ?_, ?_, ?_⟩
    · intro A p FileAttributes SecurityDescriptor AllocationSize
      rcases Create_cases Remain A s p FileAttributes SecurityDescriptor AllocationSize with
        ⟨_, _, hst⟩ | ⟨hok, _⟩
      · rcases hst with hst | hst
        · rw [hst]
          exact hinv
        · rw [hst]
          exact HeapInv_append _ _ hinv (fun n hn => absurd hn (by simp))
      · obtain ⟨n, hst, hn⟩ := hnew A p FileAttributes SecurityDescriptor AllocationSize hok
        rw [hst]
        exact HeapInv_append _ _ hinv (fun m hm => by
          simp only [Option.some.injEq] at hm
          subst hm
          exact hn)
    · intro p r h
      rcases (Open_shape Remain s p r h).2 with hh | ⟨a, n, c, hn, hh⟩
      · rw [hh]
        exact hinv
      · rw [hh]
        exact HeapInv_set _ _ _ hinv (fun m hm => by
          simp only [Option.some.injEq] at hm
          subst hm
          exact hinv a n hn)
    · intro FileNode0 FileAttributes ReplaceFileAttributes r h
      obtain ⟨_, n, m, hn, hh, hname, halloc, hsize⟩ :=
        Overwrite_shape s FileNode0 FileAttributes ReplaceFileAttributes r h
      rw [hh]
      refine HeapInv_set _ _ _ hinv (fun m2 hm => ?_)
      simp only [Option.some.injEq] at hm
      subst hm
      obtain ⟨h1, h2, _⟩ := hinv FileNode0 n hn
      refine ⟨?_, ?_, ?_⟩
      · rw [hname]
        exact h1
      · rw [halloc]
        exact h2
      · rw [hsize]
        exact Nat.zero_le _
    · intro FileNode0 Delete t h
      rw [(Cleanup_shape s FileNode0 Delete t h).1]
      exact hinv
    · intro FileNode0 t h
      obtain ⟨_, n, hn, hh | ⟨c, hh⟩⟩ := Close_shape s FileNode0 t h
      · rw [hh]
        exact HeapInv_set _ _ _ hinv (fun m hm => absurd hm (by simp))
      · rw [hh]
        exact HeapInv_set _ _ _ hinv (fun m hm => by
          simp only [Option.some.injEq] at hm
          subst hm
          exact hinv FileNode0 n hn)

/-- Claim C17, instances: the node stored by a successful `Create` of `\a` with 1000 bytes
requested, and the store of `volSec` after `Overwrite` and after `Close` on the file `\a`. -/
theorem node_invariant_witness :
    (∃ n : MEMFS_FILE_NODE,
      (Create FspPathSuffix allocOk volQuota [92, 97] 32 none 1000).state.Heap.node
        volQuota.Heap.length = some n ∧
      n.FileName.length < MAX_PATH ∧ MEMFS_SECTOR_SIZE ∣ n.AllocationSize ∧
      n.FileSize ≤ n.AllocationSize) ∧
    HeapInv [some rootNode, some { secNode with FileAttributes := 34, FileSize := 0 }] ∧
    HeapInv [some rootNode, none] :=
  ⟨(node_invariant FspPathSuffix volQuota).1 allocOk [92, 97] 32 none 1000 (by decide),
   ((node_invariant FspPathSuffix volSec).2 HeapInv_volSec).2.2.1 1 2 false
      ⟨STATUS_SUCCESS,
        { volSec with
          Heap := [some rootNode, some { secNode with FileAttributes := 34, FileSize := 0 }] },
        { AllocationSize := 1024, FileSize := 0 }⟩
      rfl,
   ((node_invariant FspPathSuffix volSec).2 HeapInv_volSec).2.2.2.2 1
      { volSec with Heap := [some rootNode, none] }
      rfl⟩

/-- Claim C18, evaluated: with every check passed and the allocation of the security
buffer failing, `Create` of `\a` with the 20-byte descriptor returns `STATUS_SUCCESS`,
not `STATUS_INSUFFICIENT_RESOURCES`; the new name is in the map, its node records the
length 20 with a null buffer, and a following `GetSecurity` into a 20-byte destination
copies from the null buffer, so it has no defined result. -/
theorem Create_misses_security_allocation_failure :
    (Create FspPathSuffix allocNoSecurity volRoot [92, 97] 32 (some descriptor) 0).Result
      = STATUS_SUCCESS ∧
    MemfsFileNodeMapGet
        (Create FspPathSuffix allocNoSecurity volRoot [92, 97] 32 (some descriptor)
          0).state.Memfs.FileNodeMap [92, 97] = some 1 ∧
    ((Create FspPathSuffix allocNoSecurity volRoot [92, 97] 32 (some descriptor)
        0).state.Heap.node 1).map (fun n => (n.FileSecuritySize, n.FileSecurity))
      = some (20, none) ∧
    GetSecurity FspPathSuffix
        (Create FspPathSuffix allocNoSecurity volRoot [92, 97] 32 (some descriptor) 0).state
        [92, 97] false (some (List.replicate 20 0)) (some 20) = none := by
  decide

/-- On a volume with an empty map and no node, a call either has no defined result or
leaves the state as it is. -/
theorem step_fresh (Remain : Path → Path) (v t : State) (op : Op)
    (hmap : v.Memfs.FileNodeMap = []) (hheap : v.Heap = [])
    (h : step Remain v op = some t) : t = v := by
  have hnode : ∀ a, v.Heap.node a = none := by
    intro a
    rw [hheap]
    rfl
  cases op with
  | GetSecurity FileName PFileAttributes SecurityDescriptor PSecurityDescriptorSize =>
    simp only [step, Option.map_eq_some'] at h
    obtain ⟨_, _, ht⟩ := h
    exact ht.symm
  | Create A FileName FileAttributes SecurityDescriptor AllocationSize =>
    simp [step, Create, hmap, MemfsFileNodeMapGet, MemfsFileNodeMapGetParent] at h
    exact h.symm
  | Open FileName =>
    simp [step, Open, hmap, MemfsFileNodeMapGet, MemfsFileNodeMapGetParent] at h
    exact h.symm
  | Overwrite FileNode0 FileAttributes ReplaceFileAttributes =>
    simp [step, Overwrite, hnode] at h
  | Cleanup FileNode0 Delete =>
    cases Delete with
    | false =>
      simp [step, Cleanup] at h
      exact h.symm
    | true => simp [step, Cleanup, hnode] at h
  | Close FileNode0 =>
    simp [step, Close, hnode] at h

/-- On a volume with an empty map and no node, a sequence of calls either has no defined
result or leaves the state as it is. -/
theorem run_fresh (Remain : Path → Path) (v : State) (hmap : v.Memfs.FileNodeMap = [])
    (hheap : v.Heap = []) (ops : List Op) (s : State) (h : run Remain v ops = some s) :
    s = v := by
  induction ops with
  | nil =>
    simp only [run, Option.some.injEq] at h
    exact h.symm
  | cons op ops ih =>
    simp only [run] at h
    cases hs : step Remain v op with
    | none => simp [hs] at h
    | some t =>
      have ht := step_fresh Remain v t op hmap hheap hs
      subst ht
      simp only [hs] at h
      exact ih h

/-- Claim C19: from the volume a successful `MemfsCreate` builds, whatever the quotas,
every sequence of calls with a defined result ends in that same volume, whose map is
empty; and there every `Create` returns `STATUS_OBJECT_PATH_NOT_FOUND`, hence never
success, and every `Open` and `GetSecurity` returns `STATUS_OBJECT_PATH_NOT_FOUND`, for
every path, allocator and parent function. -/
theorem fresh_volume_stays_empty (Remain : Path → Path) (mallocOk mapOk : Bool)
    (fsCreate : NTSTATUS) (MaxFileNodes MaxFileSize : Nat) (v : State) (ops : List Op)
    (s : State)
    (hv : MemfsCreate mallocOk mapOk fsCreate MaxFileNodes MaxFileSize = (STATUS_SUCCESS, some v))
    (hrun : run Remain v ops = some s) :
    s = v ∧ s.Memfs.FileNodeMap = [] ∧
    (∀ (A : Allocator) (p : Path) (FileAttributes : Nat)
        (SecurityDescriptor : Option (List Nat)) (AllocationSize : Nat),
      (Create Remain A s p FileAttributes SecurityDescriptor AllocationSize).Result
        = STATUS_OBJECT_PATH_NOT_FOUND ∧
      (Create Remain A s p FileAttributes SecurityDescriptor AllocationSize).Result
        ≠ STATUS_SUCCESS ∧
      (Create Remain A s p FileAttributes SecurityDescriptor AllocationSize).state = s) ∧
    (∀ p, Open Remain s p
      = some { Result := STATUS_OBJECT_PATH_NOT_FOUND, state := s, NodeInfo := none }) ∧
    (∀ p PFileAttributes SecurityDescriptor PSecurityDescriptorSize,
      GetSecurity Remain s p PFileAttributes SecurityDescriptor PSecurityDescriptorSize
        = some { Result := STATUS_OBJECT_PATH_NOT_FOUND, FileAttributes := none,
                 SecurityDescriptor := SecurityDescriptor,
                 SecurityDescriptorSize := PSecurityDescriptorSize }) := by
  obtain ⟨_, _, hmap, hheap⟩ := MemfsCreate_MaxFileSize _ _ _ _ _ _ hv
  have hs := run_fresh Remain v hmap hheap ops s hrun
  subst hs
  refine ⟨rfl, hmap, ?_, ?_, ?_⟩
  · intro A p FileAttributes SecurityDescriptor AllocationSize
    have hC : Create Remain A s p FileAttributes SecurityDescriptor AllocationSize
        = ⟨STATUS_OBJECT_PATH_NOT_FOUND, s, none⟩ := by
      simp [Create, hmap, MemfsFileNodeMapGet, MemfsFileNodeMapGetParent]
    rw [hC]
    exact ⟨rfl, fun hh => NTSTATUS.noConfusion hh, rfl⟩
  · intro p
    simp [Open, hmap, MemfsFileNodeMapGet, MemfsFileNodeMapGetParent]
  · intro p PFileAttributes SecurityDescriptor PSecurityDescriptorSize
    simp [GetSecurity, hmap, MemfsFileNodeMapGet, MemfsFileNodeMapGetParent]

/-- Claim C19, instance: on the volume built for the quotas 100 and 65536, a `Create`,
an `Open`, a `GetSecurity` and a `Cleanup` without `Delete` leave the volume as built. -/
theorem fresh_volume_stays_empty_witness :
    volEmpty = volEmpty ∧ volEmpty.Memfs.FileNodeMap = [] ∧
    (∀ (A : Allocator) (p : Path) (FileAttributes : Nat)
        (SecurityDescriptor : Option (List Nat)) (AllocationSize : Nat),
      (Create FspPathSuffix A volEmpty p FileAttributes SecurityDescriptor AllocationSize).Result
        = STATUS_OBJECT_PATH_NOT_FOUND ∧
      (Create FspPathSuffix A volEmpty p FileAttributes SecurityDescriptor AllocationSize).Result
        ≠ STATUS_SUCCESS ∧
      (Create FspPathSuffix A volEmpty p FileAttributes SecurityDescriptor AllocationSize).state
        = volEmpty) ∧
    (∀ p, Open FspPathSuffix volEmpty p
      = some { Result := STATUS_OBJECT_PATH_NOT_FOUND, state := volEmpty, NodeInfo := none }) ∧
    (∀ p PFileAttributes SecurityDescriptor PSecurityDescriptorSize,
      GetSecurity FspPathSuffix volEmpty p PFileAttributes SecurityDescriptor
          PSecurityDescriptorSize
        = some { Result := STATUS_OBJECT_PATH_NOT_FOUND, FileAttributes := none,
                 SecurityDescriptor := SecurityDescriptor,
                 SecurityDescriptorSize := PSecurityDescriptorSize }) :=
  fresh_volume_stays_empty FspPathSuffix true true STATUS_SUCCESS 100 65536 volEmpty
    [Op.Create allocOk aTxt FILE_ATTRIBUTE_ARCHIVE none 1000, Op.Open aTxt,
     Op.GetSecurity aTxt true none (some 0), Op.Cleanup 0 false]
    volEmpty (by decide) (by decide)

/-- Claim C20 fails as stated: `Create` of `\a`, `Cleanup` with `Delete` on its handle and
`Create` of `\a` again lead from `volRoot` to a state where the first node, at address 1,
is detached and still open and the second, at address 2, is tabled under `\a`; there
`Cleanup` with `Delete` through the stale handle 1 removes the entry of the second node. -/
theorem Cleanup_removes_entry_of_other_node :
    run FspPathSuffix volRoot staleRun = some volStale ∧
    (volStale.Heap.node 1).map (fun n => (n.FileName, n.OpenCount)) = some ([92, 97], 1) ∧
    MemfsFileNodeMapGet volStale.Memfs.FileNodeMap [92, 97] = some 2 ∧
    (Cleanup volStale 1 true).map (fun t => MemfsFileNodeMapGet t.Memfs.FileNodeMap [92, 97])
      = some none := by
  decide

/-- Claim C20, amended: `Cleanup` with `Delete` removes the entry stored under the name of
the node of the handle, whichever node that entry leads to.  When the map resolves that
name to another node, the name no longer resolves afterwards, so the entry of the other
node is gone; the other node itself is not released, no node is written, and the lookup
of every other name is as before. -/
theorem Cleanup_erases_by_name (s : State) (FileNode0 other : Nat) (FileNode : MEMFS_FILE_NODE)
    (hn : s.Heap.node FileNode0 = some FileNode)
    (hother : MemfsFileNodeMapGet s.Memfs.FileNodeMap FileNode.FileName = some other)
    (hne : other ≠ FileNode0) :
    ∃ t : State,
      Cleanup s FileNode0 true = some t ∧
      MemfsFileNodeMapGet s.Memfs.FileNodeMap FileNode.FileName = some other ∧
      MemfsFileNodeMapGet t.Memfs.FileNodeMap FileNode.FileName = none ∧
      t.Heap.node other = s.Heap.node other ∧
      t.Heap = s.Heap ∧
      (∀ q, q ≠ FileNode.FileName →
        MemfsFileNodeMapGet t.Memfs.FileNodeMap q
          = MemfsFileNodeMapGet s.Memfs.FileNodeMap q) := by
  have _ := hne
  have hC : Cleanup s FileNode0 true = some
      { s with Memfs :=
        { s.Memfs with
          FileNodeMap := MemfsFileNodeMapRemove s.Memfs.FileNodeMap FileNode.FileName } } := by
    simp only [Cleanup, hn, if_true]
  refine ⟨_, hC, hother, ?_, rfl, rfl, ?_⟩
  · exact MemfsFileNodeMapGet_remove_self _ _
  · intro q hq
    exact MemfsFileNodeMapGet_remove_other _ _ _ hq

/-- Claim C20, amended, instance: the stale handle 1 of `volStale`, whose name `\a` the
map resolves to the node at address 2. -/
theorem Cleanup_erases_by_name_witness :
    ∃ t : State,
      Cleanup volStale 1 true = some t ∧
      MemfsFileNodeMapGet volStale.Memfs.FileNodeMap plainNode.FileName = some 2 ∧
      MemfsFileNodeMapGet t.Memfs.FileNodeMap plainNode.FileName = none ∧
      t.Heap.node 2 = volStale.Heap.node 2 ∧
      t.Heap = volStale.Heap ∧
      (∀ q, q ≠ plainNode.FileName →
        MemfsFileNodeMapGet t.Memfs.FileNodeMap q
          = MemfsFileNodeMapGet volStale.Memfs.FileNodeMap q) :=
  Cleanup_erases_by_name volStale 1 2 plainNode (by decide) (by decide) (by decide)

end Memfs
